import Mathlib

/-!
Verification development for the orchestrator runtime of the agentic-qa-framework
repository.  The definitions below are a shallow embedding of the Python sources
(`src/orchestrator/models.py`, `src/orchestrator/main.py`,
`src/orchestrator/dashboard_service.py`, `src/common/utils.py`): Python dicts are
association lists, `datetime` / `time.time()` values are natural numbers,
`asyncio` suspension points become explicit states in traces, and external
effects (the LLM routing oracle, base64 decoding, the remote agent stream) are
function parameters.  Theorems about the claims follow after all definitions.
-/

set_option autoImplicit false

namespace AgenticQA

/-! ### Python dict as an association list -/

/-- Lookup in a Python dict modelled as an association list (`d.get(k)`). -/
def dictGet {α : Type} (d : List (String × α)) (k : String) : Option α :=
  match d with
  | [] => none
  | (k', v) :: rest => if k' = k then some v else dictGet rest k

/-- Insertion / overwrite in a Python dict (`d[k] = v`); a present key keeps its
position, a fresh key is appended, matching CPython insertion order. -/
def dictInsert {α : Type} (d : List (String × α)) (k : String) (v : α) :
    List (String × α) :=
  match d with
  | [] => [(k, v)]
  | (k', v') :: rest =>
    if k' = k then (k, v) :: rest else (k', v') :: dictInsert rest k v

/-- Removal from a Python dict (`d.pop(k, None)`). -/
def dictPop {α : Type} (d : List (String × α)) (k : String) : List (String × α) :=
  match d with
  | [] => []
  | (k', v') :: rest => if k' = k then rest else (k', v') :: dictPop rest k

/-! ### Enumerations from `orchestrator/models.py` -/

/-- Status of an agent in the registry (`models.py`, `AgentStatus`). -/
inductive AgentStatus where
  | AVAILABLE
  | BUSY
  | BROKEN
deriving DecidableEq, Repr

/-- Reason why an agent is marked as BROKEN (`models.py`, `BrokenReason`). -/
inductive BrokenReason where
  | OFFLINE
  | TASK_STUCK
deriving DecidableEq, Repr

/-- Status of a task in the history (`models.py`, `TaskStatus`). -/
inductive TaskStatus where
  | PENDING
  | RUNNING
  | COMPLETED
  | FAILED
  | CANCELLED
deriving DecidableEq, Repr

/-! ### Task records and the task history ring buffer

`models.py` lines 44-75 and 102-137.  `datetime` values are modelled as `Nat`.
The Python deque and the `_tasks_by_id` dict hold references to the same
`TaskRecord` objects, so the embedding uses an object heap: `heap` lists every
record object ever created (its index is the object identity), `ring` is the
`deque(maxlen=max_size)` of object ids, and `byId` is `_tasks_by_id`.
-/

/-- Record of a task for history tracking (`models.py`, `TaskRecord`).  The
`agent_logs` field is modelled from the spec: the spec's Task Record carries
`agent_logs?` ("the decoded body of any log artifact the agent returned") and
`dashboard_service.py` reads `task_record.agent_logs`, but `models.py` does not
declare the field; it is included here so that the spec-modelled storage
operation has somewhere to store. -/
structure TaskRecord where
  task_id : String
  agent_id : String
  agent_name : String
  description : String
  status : TaskStatus
  start_time : Nat
  end_time : Option Nat
  error_message : Option String
  agent_logs : List String
deriving DecidableEq, Repr

/-- Ring buffer for task history (`models.py`, `TaskHistory`). -/
structure TaskHistory where
  maxSize : Nat
  heap : List TaskRecord
  ring : List Nat
  byId : List (String × Nat)
deriving DecidableEq, Repr

/-- Fresh task history (`TaskHistory.__init__`). -/
def TaskHistory.empty (maxSize : Nat) : TaskHistory :=
  { maxSize := maxSize, heap := [], ring := [], byId := [] }

/-- Default capacity used by the module-level history
(`models.py` line 279, `TaskHistory(max_size=100)`). -/
def task_history_default_max_size : Nat := 100

/-- Add a new task record (`TaskHistory.add`).  Appending to a full
`deque(maxlen=max_size)` evicts the oldest entry. -/
def TaskHistory.add (h : TaskHistory) (task : TaskRecord) : TaskHistory :=
  let oid := h.heap.length
  let r := h.ring ++ [oid]
  { h with
    heap := h.heap ++ [task]
    ring := r.drop (r.length - h.maxSize)
    byId := dictInsert h.byId task.task_id oid }

/-- Update an existing task record (`TaskHistory.update`).  A missing id is a
no-op; `end_time` is only overwritten when the argument is truthy (a `datetime`
is always truthy, so: when it is not `None`); `error_message` is only
overwritten when the argument is a non-empty string. -/
def TaskHistory.update (h : TaskHistory) (task_id : String) (status : TaskStatus)
    (end_time : Option Nat) (error_message : Option String) : TaskHistory :=
  match dictGet h.byId task_id with
  | none => h
  | some oid =>
    match h.heap[oid]? with
    | none => h
    | some task =>
      let task' : TaskRecord :=
        { task with
          status := status
          end_time := if end_time.isSome then end_time else task.end_time
          error_message :=
            match error_message with
            | some s => if s = "" then task.error_message else some s
            | none => task.error_message }
      { h with heap := h.heap.set oid task' }

/-- Modelled from the spec: `TaskHistory.update_logs`, the storage step "the
bytes are base64-decoded and stored in the TaskRecord for the dashboard"
(spec section 6, Artifacts).  `main.py` line 816 calls
`task_history.update_logs(internal_task_id, agent_logs)` and
`dashboard_service.py` reads the stored blob, but `models.py` defines no such
method; this definition follows the spec's words. -/
def TaskHistory.update_logs (h : TaskHistory) (task_id : String)
    (logs : List String) : TaskHistory :=
  match dictGet h.byId task_id with
  | none => h
  | some oid =>
    match h.heap[oid]? with
    | none => h
    | some task => { h with heap := h.heap.set oid { task with agent_logs := logs } }

/-- All task records, newest first (`TaskHistory.get_all`). -/
def TaskHistory.get_all (h : TaskHistory) : List TaskRecord :=
  (h.ring.filterMap (fun oid => h.heap[oid]?)).reverse

/-- Lookup of a specific task by id (`TaskHistory.get_by_id`). -/
def TaskHistory.get_by_id (h : TaskHistory) (task_id : String) : Option TaskRecord :=
  (dictGet h.byId task_id).bind (fun oid => h.heap[oid]?)

/-- Well-formedness of the history: every object id in the index points inside
the heap.  It holds for every history reachable through the API and is
preserved by all operations. -/
def TaskHistory.WellFormed (h : TaskHistory) : Prop :=
  ∀ k oid, dictGet h.byId k = some oid → oid < h.heap.length

/-! ### Agent registry (`models.py`, `AgentRegistry`) -/

/-- Agent card; only the fields the orchestrator core reads (`a2a.types.AgentCard`
is opaque to the core beyond `name` and `url`). -/
structure AgentCard where
  name : String
  url : String
deriving DecidableEq, Repr

/-- Registry for agent cards and statuses (`models.py`, `AgentRegistry`);
each `Dict[str, ...]` field becomes an association list. -/
structure AgentRegistry where
  cards : List (String × AgentCard)
  statuses : List (String × AgentStatus)
  broken_reasons : List (String × BrokenReason)
  stuck_task_ids : List (String × String)
  current_tasks : List (String × String)
deriving DecidableEq, Repr

/-- Empty registry (`AgentRegistry.__init__`). -/
def AgentRegistry.empty : AgentRegistry :=
  { cards := [], statuses := [], broken_reasons := [], stuck_task_ids := [],
    current_tasks := [] }

/-- Registration (`AgentRegistry.register`): replace the card; set the status to
AVAILABLE only when the id has no status yet. -/
def AgentRegistry.register (r : AgentRegistry) (agent_id : String)
    (card : AgentCard) : AgentRegistry :=
  let r1 := { r with cards := dictInsert r.cards agent_id card }
  match dictGet r.statuses agent_id with
  | some _ => r1
  | none => { r1 with statuses := dictInsert r1.statuses agent_id AgentStatus.AVAILABLE }

/-- Status transition (`AgentRegistry.update_status`): guarded by card presence;
a BROKEN transition with a truthy reason records the reason and, when truthy,
the stuck task id; an AVAILABLE transition clears the broken context and the
current task. -/
def AgentRegistry.update_status (r : AgentRegistry) (agent_id : String)
    (status : AgentStatus) (broken_reason : Option BrokenReason)
    (stuck_task_id : Option String) : AgentRegistry :=
  if (dictGet r.cards agent_id).isSome then
    let r1 := { r with statuses := dictInsert r.statuses agent_id status }
    match status, broken_reason with
    | AgentStatus.BROKEN, some reason =>
      let r2 := { r1 with broken_reasons := dictInsert r1.broken_reasons agent_id reason }
      match stuck_task_id with
      | some tid =>
        if tid = "" then r2
        else { r2 with stuck_task_ids := dictInsert r2.stuck_task_ids agent_id tid }
      | none => r2
    | AgentStatus.AVAILABLE, _ =>
      { r1 with
        broken_reasons := dictPop r1.broken_reasons agent_id
        stuck_task_ids := dictPop r1.stuck_task_ids agent_id
        current_tasks := dictPop r1.current_tasks agent_id }
    | _, _ => r1
  else r

/-- Set or clear the current task for an agent (`AgentRegistry.set_current_task`);
a falsy task id (None or the empty string) clears. -/
def AgentRegistry.set_current_task (r : AgentRegistry) (agent_id : String)
    (task_id : Option String) : AgentRegistry :=
  match task_id with
  | some tid =>
    if tid = "" then { r with current_tasks := dictPop r.current_tasks agent_id }
    else { r with current_tasks := dictInsert r.current_tasks agent_id tid }
  | none => { r with current_tasks := dictPop r.current_tasks agent_id }

/-- Current task accessor (`AgentRegistry.get_current_task`). -/
def AgentRegistry.get_current_task (r : AgentRegistry) (agent_id : String) :
    Option String :=
  dictGet r.current_tasks agent_id

/-- Status accessor (`AgentRegistry.get_status`): a missing entry reads BROKEN. -/
def AgentRegistry.get_status (r : AgentRegistry) (agent_id : String) : AgentStatus :=
  (dictGet r.statuses agent_id).getD AgentStatus.BROKEN

/-- Broken context accessor (`AgentRegistry.get_broken_context`). -/
def AgentRegistry.get_broken_context (r : AgentRegistry) (agent_id : String) :
    Option BrokenReason × Option String :=
  (dictGet r.broken_reasons agent_id, dictGet r.stuck_task_ids agent_id)

/-- Card accessor (`AgentRegistry.get_card`). -/
def AgentRegistry.get_card (r : AgentRegistry) (agent_id : String) : Option AgentCard :=
  dictGet r.cards agent_id

/-- Name accessor (`AgentRegistry.get_name`). -/
def AgentRegistry.get_name (r : AgentRegistry) (agent_id : String) : String :=
  match dictGet r.cards agent_id with
  | some card => card.name
  | none => "Unknown"

/-- Emptiness check (`AgentRegistry.is_empty`). -/
def AgentRegistry.is_empty (r : AgentRegistry) : Bool :=
  r.cards.isEmpty

/-- Removal (`AgentRegistry.remove`): clears all per-agent state. -/
def AgentRegistry.remove (r : AgentRegistry) (agent_id : String) : AgentRegistry :=
  { cards := dictPop r.cards agent_id
    statuses := dictPop r.statuses agent_id
    broken_reasons := dictPop r.broken_reasons agent_id
    stuck_task_ids := dictPop r.stuck_task_ids agent_id
    current_tasks := dictPop r.current_tasks agent_id }

/-- Modelled from the spec: `AgentRegistry.get_available_agents`, "snapshot of
ids with status = AVAILABLE" (spec section 4.1).  `main.py` lines 984 and 1074
call it, but `models.py` does not define it; this definition follows the
spec's words. -/
def AgentRegistry.get_available_agents (r : AgentRegistry) : List String :=
  (r.statuses.filter (fun p => p.2 = AgentStatus.AVAILABLE)).map (fun p => p.1)

/-! ### A2A wire types (`a2a.types`), restricted to what the core reads -/

namespace A2A

/-- Task state on the agent protocol (`a2a.types.TaskState`). -/
inductive TaskState where
  | submitted
  | working
  | input_required
  | completed
  | canceled
  | failed
  | rejected
deriving DecidableEq, Repr

/-- File content part (`a2a.types.FileWithBytes`): a name and base64 text. -/
structure FileWithBytes where
  name : Option String
  bytes : String
deriving DecidableEq, Repr

/-- One part of an artifact: a text part or a file part. -/
inductive Part where
  | text (t : String)
  | file (f : FileWithBytes)
deriving DecidableEq, Repr

/-- Artifact returned by an agent: an ordered list of parts. -/
structure Artifact where
  parts : List Part
deriving DecidableEq, Repr

/-- Status snapshot inside a remote task (`a2a.types.TaskStatus`): a state and
an optional status message (its text). -/
structure TaskStatus where
  state : TaskState
  message : Option String
deriving DecidableEq, Repr

/-- Remote task (`a2a.types.Task`): id, status, artifacts. -/
structure Task where
  id : String
  status : TaskStatus
  artifacts : List Artifact
deriving DecidableEq, Repr

end A2A

/-- Terminal task states checked by the dispatcher
(`main.py` lines 864 and 900: completed, failed, rejected). -/
def isTerminalTaskState (s : A2A.TaskState) : Bool :=
  s = A2A.TaskState.completed || s = A2A.TaskState.failed || s = A2A.TaskState.rejected

/-! ### String helpers mirroring the Python operations used by the core -/

/-- Check that one character list starts with another (helper for substring
containment). -/
def listStartsWithChars : List Char → List Char → Bool
  | _, [] => true
  | [], _ :: _ => false
  | c :: cs, p :: ps => c = p && listStartsWithChars cs ps

/-- Check that a character list contains another as a contiguous run. -/
def listContainsChars : List Char → List Char → Bool
  | [], pat => pat.isEmpty
  | c :: cs, pat => listStartsWithChars (c :: cs) pat || listContainsChars cs pat

/-- Python substring containment `pat in s`. -/
def strContainsSub (s pat : String) : Bool :=
  listContainsChars s.data pat.data

/-- Python `s.lower()` (character-level, so that the kernel can evaluate it). -/
def strToLower (s : String) : String :=
  String.mk (s.data.map Char.toLower)

/-- Python `s.upper()`. -/
def strToUpper (s : String) : String :=
  String.mk (s.data.map Char.toUpper)

/-- Python `s.endswith(suffix)`. -/
def strEndsWith (s suffix : String) : Bool :=
  listStartsWithChars s.data.reverse suffix.data.reverse

/-- Python `s.startswith(p)`. -/
def strStartsWith (s p : String) : Bool :=
  listStartsWithChars s.data p.data

/-- Python `s[n:]` (by code points). -/
def strDropChars (s : String) (n : Nat) : String :=
  String.mk (s.data.drop n)

/-- Whitespace characters stripped by Python `str.strip()` (the ones occurring
in the parsed log material). -/
def isPyWhitespace (c : Char) : Bool :=
  c = ' ' || c = '\t' || c = '\n' || c = '\r'

/-- Python `s.strip()`. -/
def strTrim (s : String) : String :=
  String.mk (((s.data.dropWhile isPyWhitespace).reverse.dropWhile
    isPyWhitespace).reverse)

/-- Worker for `splitOnStr`: scan left to right, `skip` characters of a
recognised separator still to consume, `acc` the current piece reversed. -/
def splitOnGo (sep : List Char) : List Char → Nat → List Char → List (List Char)
  | [], _skip, acc => [acc.reverse]
  | c :: cs, skip, acc =>
    if 0 < skip then splitOnGo sep cs (skip - 1) acc
    else if listStartsWithChars (c :: cs) sep then
      acc.reverse :: splitOnGo sep cs (sep.length - 1) []
    else splitOnGo sep cs 0 (c :: acc)

/-- Python `s.split(sep)` for a non-empty separator (left-to-right,
non-overlapping). -/
def splitOnStr (s sep : String) : List String :=
  if sep.data.isEmpty then [s]
  else (splitOnGo sep.data s.data 0 []).map String.mk

/-- Python `sep.join(pieces)`. -/
def strIntercalate (sep : String) (pieces : List String) : String :=
  String.mk (List.intercalate sep.data (pieces.map String.data))

/-- Python `s.split(sep, maxsplit)`: at most `maxsplit + 1` pieces, the last one
keeping the remaining separators. -/
def splitWithMaxsplit (s sep : String) (maxsplit : Nat) : List String :=
  let ps := splitOnStr s sep
  if ps.length ≤ maxsplit + 1 then ps
  else ps.take maxsplit ++ [strIntercalate sep (ps.drop maxsplit)]

/-- Python `s.lstrip(chars)`: drop leading characters drawn from `chars`. -/
def lstripChars (chars : List Char) (s : String) : String :=
  String.mk (s.data.dropWhile (fun c => chars.contains c))

/-! ### Log extraction from artifacts (`common/utils.py` lines 79-102) -/

/-- Decide whether one file artifact is a log file and decode it
(the loop body of `get_execution_logs_from_artifacts`): the name must be
truthy, contain the filename pattern case-insensitively, end in `.txt` or
`.log`, and the bytes must be truthy; `decode` stands for
`base64.b64decode(...).decode(utf-8)` and is `none` on decode failure, in
which case the artifact is skipped. -/
def log_artifact_content (decode : String → Option String)
    (log_filename_pattern : String) (artifact : A2A.FileWithBytes) : Option String :=
  match artifact.name with
  | none => none
  | some name =>
    if name ≠ "" ∧ strContainsSub (strToLower name) (strToLower log_filename_pattern) ∧
        (strEndsWith name ".txt" = true ∨ strEndsWith name ".log" = true) ∧
        artifact.bytes ≠ "" then
      decode artifact.bytes
    else none

/-- Extraction of execution logs from file artifacts
(`get_execution_logs_from_artifacts`); the default filename pattern at the
single orchestrator call site is the literal string "logs". -/
def get_execution_logs_from_artifacts (decode : String → Option String)
    (artifacts : List A2A.FileWithBytes) (log_filename_pattern : String) :
    List String :=
  if artifacts.isEmpty then []
  else artifacts.filterMap (log_artifact_content decode log_filename_pattern)

/-- Filename pattern the orchestrator passes (by default) when extracting logs
(`utils.py` line 79). -/
def orchestrator_log_filename_pattern : String := "logs"

/-- Specification-side filter, following the spec's words (section 6,
Artifacts): "any file part whose name contains the substring log
(case-insensitive) and whose suffix is .txt or .log".  Written only to be
compared with the source-derived filter above. -/
def specLogArtifactName (name : String) : Bool :=
  strContainsSub (strToLower name) "log" &&
    (strEndsWith name ".txt" || strEndsWith name ".log")

/-- File parts of the first artifact (`main.py`,
`_get_file_contents_from_artifacts`): the loop reads `artifacts[0].parts`
only; an empty artifact list raises IndexError, which every caller of this
helper relevant here swallows, so it is mapped to the empty list. -/
def get_file_contents_from_artifacts (artifacts : List A2A.Artifact) :
    List A2A.FileWithBytes :=
  match artifacts with
  | [] => []
  | a :: _ =>
    a.parts.filterMap (fun p =>
      match p with
      | A2A.Part.file f => some f
      | A2A.Part.text _ => none)

/-- Text parts of the first artifact joined by newlines (`main.py`,
`_get_text_content_from_artifacts`); `none` models the `_handle_exception`
raise when content was expected but no text part is present. -/
def get_text_content_from_artifacts (artifacts : List A2A.Artifact) :
    Option String :=
  match artifacts with
  | [] => none
  | a :: _ =>
    let text_parts := a.parts.filterMap (fun p =>
      match p with
      | A2A.Part.text t => some t
      | A2A.Part.file _ => none)
    if text_parts.isEmpty then none
    else some (strIntercalate "\n" text_parts)

/-- Extraction and storage of agent logs from a completed task
(`main.py`, `_save_agent_logs_from_task`): read the file parts, run
`get_execution_logs_from_artifacts` with the default "logs" pattern, and when
logs were found store them on the task record (the storage method
`TaskHistory.update_logs` is modelled from the spec, see its doc comment);
failures inside the body are swallowed, leaving the history unchanged. -/
def save_agent_logs_from_task (decode : String → Option String)
    (h : TaskHistory) (task : A2A.Task) (internal_task_id : String) : TaskHistory :=
  let file_artifacts := get_file_contents_from_artifacts task.artifacts
  let agent_logs := get_execution_logs_from_artifacts decode file_artifacts
    orchestrator_log_filename_pattern
  if agent_logs.isEmpty then h
  else h.update_logs internal_task_id agent_logs

/-! ### Dashboard log parsing (`orchestrator/dashboard_service.py` lines 168-268) -/

/-- One parsed log entry (`orchestrator/memory_log_handler.py`, `LogEntry`). -/
structure LogEntry where
  timestamp : String
  level : String
  logger_name : String
  message : String
  task_id : Option String
  agent_id : Option String
deriving DecidableEq, Repr

/-- Known log levels checked in the three-part branch
(`dashboard_service.py` line 218). -/
def knownLogLevels : List String :=
  ["DEBUG", "INFO", "WARNING", "ERROR", "CRITICAL"]

/-- Level prefixes probed, in order, in the logger-name three-part branch
(`dashboard_service.py` line 235). -/
def probedLogLevels : List String :=
  ["ERROR", "WARNING", "DEBUG", "INFO", "CRITICAL"]

/-- Parse a single agent log line (`_parse_agent_logs`, per-line body).
`strptime` stands for the two `datetime.strptime` attempts (with and without
milliseconds): `some t` is the parsed ISO timestamp, `none` means both formats
failed.  `now` stands for `datetime.now().isoformat()`, the fallback used when
no timestamp was assigned at all. -/
def parse_agent_log_line (strptime : String → Option String) (now : String)
    (task_id agent_id : String) (line : String) : LogEntry :=
  let parts := splitWithMaxsplit line " - " 3
  let entry0 : LogEntry :=
    { timestamp := now, level := "INFO", logger_name := "agent." ++ agent_id,
      message := line, task_id := some task_id, agent_id := some agent_id }
  if parts.length ≥ 4 then
    match parts with
    | raw_timestamp :: parsed_logger :: parsed_level :: parsed_message :: _ =>
      { entry0 with
        timestamp := (strptime (strTrim raw_timestamp)).getD (strTrim raw_timestamp)
        logger_name := strTrim parsed_logger
        level := strToUpper (strTrim parsed_level)
        message := parsed_message }
    | _ => entry0
  else if parts.length = 3 then
    match parts with
    | [raw_timestamp, part2, part3] =>
      if knownLogLevels.contains (strToUpper (strTrim part2)) then
        { entry0 with
          timestamp := (strptime (strTrim raw_timestamp)).getD (strTrim raw_timestamp)
          level := strToUpper (strTrim part2)
          message := part3 }
      else
        let (lvl, msg) :=
          match probedLogLevels.find? (fun lvl => strStartsWith part3 lvl) with
          | some lvl =>
            (lvl, lstripChars [' ', '-', ':'] (strDropChars part3 lvl.data.length))
          | none => ("INFO", part3)
        { entry0 with
          timestamp := (strptime (strTrim raw_timestamp)).getD now
          level := lvl
          logger_name := strTrim part2
          message := msg }
    | _ => entry0
  else entry0

/-- Parse raw agent log chunks into entries (`_parse_agent_logs`): each chunk
is split into lines, blank lines are skipped, and each remaining line is
parsed. -/
def parse_agent_logs (strptime : String → Option String) (now : String)
    (raw_logs : List String) (task_id agent_id : String) : List LogEntry :=
  raw_logs.flatMap (fun log_chunk =>
    ((splitOnStr log_chunk "\n").filter (fun line => strTrim line ≠ "")).map
      (parse_agent_log_line strptime now task_id agent_id))

/-! ### Recovery loop (`main.py`, `_retry_cancellation_task`, lines 167-252)

One iteration of the drainer, for one dequeued `(agent_id, timestamp)` tuple.
The cancel RPC (`_cancel_agent_task`) and the reachability probe
(`_fetch_agent_card`) are external effects, passed as booleans giving their
outcome for this iteration.
-/

/-- Result of one recovery iteration: the registry afterwards, the tuple put
back on the channel (if any), the back-off slept before re-enqueueing, and
whether the entry was dropped for age or skipped for a missing card. -/
structure RecoveryStepResult where
  registry : AgentRegistry
  requeued : Option (String × Nat)
  sleep_seconds : Nat
  gave_up : Bool
  skipped_no_card : Bool
deriving DecidableEq, Repr

/-- Outcome when the agent was recovered (`main.py` lines 238-241): mark it
AVAILABLE (clearing the broken context) and do not re-enqueue. -/
def recovery_recovered (r : AgentRegistry) (agent_id : String) : RecoveryStepResult :=
  { registry := r.update_status agent_id AgentStatus.AVAILABLE none none,
    requeued := none, sleep_seconds := 0, gave_up := false, skipped_no_card := false }

/-- Outcome when the agent was not recovered (`main.py` lines 242-246): sleep
60 seconds and re-enqueue the tuple with its original timestamp. -/
def recovery_not_recovered (r : AgentRegistry) (agent_id : String)
    (timestamp : Nat) : RecoveryStepResult :=
  { registry := r, requeued := some (agent_id, timestamp), sleep_seconds := 60,
    gave_up := false, skipped_no_card := false }

/-- One iteration of the broken-agent recovery task
(`_retry_cancellation_task` loop body).  `now` is `time.time()`; entries older
than 24 hours are dropped; a missing card skips recovery; the branch structure
mirrors lines 195-246 of `main.py`. -/
def retry_cancellation_iteration (r : AgentRegistry) (agent_id : String)
    (timestamp now : Nat) (cancel_success probe_success : Bool) :
    RecoveryStepResult :=
  if 24 * 3600 < now - timestamp then
    { registry := r, requeued := none, sleep_seconds := 0, gave_up := true,
      skipped_no_card := false }
  else
    let ctx := r.get_broken_context agent_id
    match r.get_card agent_id with
    | none =>
      { registry := r, requeued := none, sleep_seconds := 0, gave_up := false,
        skipped_no_card := true }
    | some _card =>
      match ctx.1 with
      | some BrokenReason.OFFLINE =>
        if probe_success then recovery_recovered r agent_id
        else recovery_not_recovered r agent_id timestamp
      | some BrokenReason.TASK_STUCK =>
        match ctx.2 with
        | some stuck_task_id =>
          if stuck_task_id = "" then
            if probe_success then recovery_recovered r agent_id
            else recovery_not_recovered r agent_id timestamp
          else if cancel_success then recovery_recovered r agent_id
          else if probe_success then recovery_recovered r agent_id
          else
            recovery_not_recovered
              (r.update_status agent_id AgentStatus.BROKEN (some BrokenReason.OFFLINE) none)
              agent_id timestamp
        | none =>
          if probe_success then recovery_recovered r agent_id
          else recovery_not_recovered r agent_id timestamp
      | none =>
        if probe_success then recovery_recovered r agent_id
        else recovery_not_recovered r agent_id timestamp

/-! ### Wait-and-reserve (`main.py`, `_wait_and_reserve_agent`, lines 957-1009)

The loop runs concurrently with the rest of the system, so the registry it
observes may differ between reads: `registryAt n` is the snapshot read by
`get_available_agents` in iteration `n`, `registryCheckAt n` the one consulted
by the double-check after the routing oracle, and `select n` the oracle's
answer.  Time is rational (the back-off multiplies by 1.5); the clock advances
only across the back-off sleeps.  Recursion is by explicit fuel, with theorems
supplying a fuel bound derived from the deadline.
-/

/-- Outcome of `_wait_and_reserve_agent`, mirroring its exits: a reservation,
or the three `_handle_exception` raises (404 empty registry, 404 no suitable
agent, 503 deadline), plus fuel exhaustion of the embedding. -/
inductive ReserveOutcome where
  | reserved (agent_id : String) (card : AgentCard) (registry : AgentRegistry)
  | noAgentsRegistered
  | noneSuitable
  | reservationTimeout
  | outOfFuel
deriving DecidableEq, Repr

/-- HTTP status surfaced for each outcome (`_handle_exception` call sites at
`main.py` lines 974, 999, 1008). -/
def reserveHTTPStatus : ReserveOutcome → Option Nat
  | ReserveOutcome.reserved _ _ _ => none
  | ReserveOutcome.noAgentsRegistered => some 404
  | ReserveOutcome.noneSuitable => some 404
  | ReserveOutcome.reservationTimeout => some 503
  | ReserveOutcome.outOfFuel => none

/-- Cap of the back-off sleep (`max_wait_interval`, `main.py` line 979). -/
def max_wait_interval : ℚ := 30

/-- Value of `config.OrchestratorConfig.TASK_EXECUTION_TIMEOUT`
(`config.py` line 85), the overall reservation deadline. -/
def config_TASK_EXECUTION_TIMEOUT : ℚ := 500

/-- Reservation loop (`main.py` lines 981-1009).  Arguments after the
environment: remaining fuel, iteration index, elapsed clock, current back-off
interval, and the sleeps performed so far (accumulated in reverse). -/
def wait_and_reserve_loop (registryAt registryCheckAt : Nat → AgentRegistry)
    (select : Nat → Option String) (max_wait_time : ℚ) :
    Nat → Nat → ℚ → ℚ → List ℚ → ReserveOutcome × List ℚ
  | 0, _, _, _, sleeps => (ReserveOutcome.outOfFuel, sleeps)
  | fuel + 1, n, clock, wait_interval, sleeps =>
    if max_wait_time ≤ clock then (ReserveOutcome.reservationTimeout, sleeps)
    else
      let available_agent_ids := (registryAt n).get_available_agents
      if available_agent_ids.isEmpty then
        wait_and_reserve_loop registryAt registryCheckAt select max_wait_time fuel
          (n + 1) (clock + wait_interval) (min (wait_interval * (3 / 2)) max_wait_interval)
          (sleeps ++ [wait_interval])
      else
        match select n with
        | none => (ReserveOutcome.noneSuitable, sleeps)
        | some agent_id =>
          let rc := registryCheckAt n
          if rc.get_status agent_id = AgentStatus.AVAILABLE then
            match rc.get_card agent_id with
            | some card =>
              (ReserveOutcome.reserved agent_id card
                (rc.update_status agent_id AgentStatus.BUSY none none), sleeps)
            | none =>
              wait_and_reserve_loop registryAt registryCheckAt select max_wait_time fuel
                (n + 1) (clock + wait_interval)
                (min (wait_interval * (3 / 2)) max_wait_interval)
                (sleeps ++ [wait_interval])
          else
            wait_and_reserve_loop registryAt registryCheckAt select max_wait_time fuel
              (n + 1) (clock + wait_interval)
              (min (wait_interval * (3 / 2)) max_wait_interval)
              (sleeps ++ [wait_interval])

/-- Wait for an available agent and reserve it (`_wait_and_reserve_agent`):
the empty-registry check happens once at entry against `registryAtEntry`; the
loop then starts with a 2 second back-off and the configured deadline
(`max_wait_time = config.OrchestratorConfig.TASK_EXECUTION_TIMEOUT`, here a
parameter mirroring the local variable). -/
def wait_and_reserve_agent (registryAtEntry : AgentRegistry)
    (registryAt registryCheckAt : Nat → AgentRegistry)
    (select : Nat → Option String) (max_wait_time : ℚ) (fuel : Nat) :
    ReserveOutcome × List ℚ :=
  if registryAtEntry.is_empty then (ReserveOutcome.noAgentsRegistered, [])
  else wait_and_reserve_loop registryAt registryCheckAt select max_wait_time fuel 0 0 2 []

/-! ### Dispatcher (`main.py`, `_send_task_to_agent_with_message`, lines 821-940)

The dispatch is embedded as a state machine over the orchestrator's shared
state.  Every `await`ed mutation (registry update, history update, queue put)
produces one entry in an observation trace: at such a point the scheduler may
run any other activity (dashboard reads included), so these are exactly the
observable states.  The agent's response stream is a list of
`(delay, event)` pairs followed by stream exhaustion after `endDelay` more
seconds; `asyncio.wait_for` delivers the next item only when its delay fits in
the time left, else it raises `TimeoutError`.  Wall-clock reads
(`datetime.now()`, `time.time()`) are `t0 + elapsed`.
-/

/-- Shared orchestrator state touched by a dispatch: the agent registry, the
task history, and the recovery (cancellation) channel content. -/
structure OrchState where
  registry : AgentRegistry
  history : TaskHistory
  cancellation_queue : List (String × Nat)
deriving DecidableEq, Repr

/-- Phase of a dispatch at an observable state: between marking the agent BUSY
and setting its current task (`reserveWindow`), steady state inside the event
loop (`runningPhase`), between finalising the task record and releasing or
demoting the agent (`releaseWindow`), and after the agent's status was updated
on the way out (`donePhase`). -/
inductive DispatchPhase where
  | reserveWindow
  | runningPhase
  | releaseWindow
  | donePhase
deriving DecidableEq, Repr

/-- Event on the agent response stream: a `(task, extra)` tuple, an
informational message, a JSON-RPC error envelope, or a transport-level
exception raised while awaiting the next item. -/
inductive StreamEvent where
  | taskEvent (t : A2A.Task)
  | message (text : String)
  | rpcError (err : String)
  | transportError (err : String)
deriving DecidableEq, Repr

/-- Exit taken by the dispatch, one constructor per exit point of
`_send_task_to_agent_with_message`: normal return with the terminal task,
stream end before a terminal state (line 876), JSON-RPC error (line 894),
per-event timeout (line 887), overall timeout (line 924), and the generic
exception handler that re-raises (lines 930-940). -/
inductive DispatchExit where
  | completedOk (t : A2A.Task)
  | streamEndedEarly
  | rpcErrorExit (err : String)
  | perEventTimeout (last_task_id : Option String)
  | overallTimeout
  | exceptionExit (err : String)
deriving DecidableEq, Repr

/-- HTTP status surfaced for each dispatch exit (the `_handle_exception`
status codes; the re-raised exception of the generic handler becomes a 500 at
the framework edge). -/
def dispatchHTTPStatus : DispatchExit → Option Nat
  | DispatchExit.completedOk _ => none
  | DispatchExit.streamEndedEarly => some 500
  | DispatchExit.rpcErrorExit _ => some 500
  | DispatchExit.perEventTimeout _ => some 408
  | DispatchExit.overallTimeout => some 408
  | DispatchExit.exceptionExit _ => some 500

/-- Per-event timeout path (`main.py` lines 877-887): finalise the record
FAILED with message "Task timed out", mark the agent BROKEN(TASK_STUCK) with
the last known remote task id, clear the current task, enqueue
`(agent_id, now)` on the recovery channel. -/
def per_event_timeout_steps (s : OrchState) (agent_id internal_task_id : String)
    (stuck_task_id : Option String) (now : Nat) :
    List (DispatchPhase × OrchState) × OrchState :=
  let s1 := { s with history := (s.history.update internal_task_id TaskStatus.FAILED
                (some now) (some "Task timed out")) }
  let s2 := { s1 with registry := (s1.registry.update_status agent_id AgentStatus.BROKEN
                (some BrokenReason.TASK_STUCK) stuck_task_id) }
  let s3 := { s2 with registry := s2.registry.set_current_task agent_id none }
  let s4 := { s3 with cancellation_queue := s3.cancellation_queue ++ [(agent_id, now)] }
  ([(DispatchPhase.releaseWindow, s1), (DispatchPhase.donePhase, s2),
    (DispatchPhase.donePhase, s3), (DispatchPhase.donePhase, s4)], s4)

/-- Overall timeout path (`main.py` lines 919-924): finalise the record FAILED
with message "Timeout waiting for completion", mark the agent
BROKEN(TASK_STUCK) without a stuck task id, clear the current task, enqueue
`(agent_id, now)`. -/
def overall_timeout_steps (s : OrchState) (agent_id internal_task_id : String)
    (now : Nat) : List (DispatchPhase × OrchState) × OrchState :=
  let s1 := { s with history := (s.history.update internal_task_id TaskStatus.FAILED
                (some now) (some "Timeout waiting for completion")) }
  let s2 := { s1 with registry := (s1.registry.update_status agent_id AgentStatus.BROKEN
                (some BrokenReason.TASK_STUCK) none) }
  let s3 := { s2 with registry := s2.registry.set_current_task agent_id none }
  let s4 := { s3 with cancellation_queue := s3.cancellation_queue ++ [(agent_id, now)] }
  ([(DispatchPhase.releaseWindow, s1), (DispatchPhase.donePhase, s2),
    (DispatchPhase.donePhase, s3), (DispatchPhase.donePhase, s4)], s4)

/-- Terminal-event success path (`main.py` lines 900-909): finalise the record
COMPLETED or FAILED (with the remote status message as error for non-completed
states), save agent logs, release the agent AVAILABLE, clear the current
task. -/
def finish_terminal_event_steps (decode : String → Option String) (s : OrchState)
    (agent_id internal_task_id : String) (t : A2A.Task) (now : Nat) :
    List (DispatchPhase × OrchState) × OrchState :=
  let final_status := if t.status.state = A2A.TaskState.completed
    then TaskStatus.COMPLETED else TaskStatus.FAILED
  let error_msg := if t.status.state ≠ A2A.TaskState.completed
    then t.status.message else none
  let s1 := { s with history := (s.history.update internal_task_id final_status
                (some now) error_msg) }
  let s2 := { s1 with history := (save_agent_logs_from_task decode s1.history t
                internal_task_id) }
  let s3 := { s2 with registry := (s2.registry.update_status agent_id
                AgentStatus.AVAILABLE none none) }
  let s4 := { s3 with registry := s3.registry.set_current_task agent_id none }
  ([(DispatchPhase.releaseWindow, s1), (DispatchPhase.releaseWindow, s2),
    (DispatchPhase.donePhase, s3), (DispatchPhase.donePhase, s4)], s4)

/-- Stream-end success path (`main.py` lines 863-871): the iterator finished
after a terminal task state; finalise the record (no error message argument),
save agent logs, release the agent AVAILABLE, clear the current task. -/
def finish_stream_end_steps (decode : String → Option String) (s : OrchState)
    (agent_id internal_task_id : String) (lt : A2A.Task) (now : Nat) :
    List (DispatchPhase × OrchState) × OrchState :=
  let final_status := if lt.status.state = A2A.TaskState.completed
    then TaskStatus.COMPLETED else TaskStatus.FAILED
  let s1 := { s with history := (s.history.update internal_task_id final_status
                (some now) none) }
  let s2 := { s1 with history := (save_agent_logs_from_task decode s1.history lt
                internal_task_id) }
  let s3 := { s2 with registry := (s2.registry.update_status agent_id
                AgentStatus.AVAILABLE none none) }
  let s4 := { s3 with registry := s3.registry.set_current_task agent_id none }
  ([(DispatchPhase.releaseWindow, s1), (DispatchPhase.releaseWindow, s2),
    (DispatchPhase.donePhase, s3), (DispatchPhase.donePhase, s4)], s4)

/-- Stream ended before a terminal state (`main.py` lines 872-876): finalise
FAILED, release the agent AVAILABLE (protocol issue, not agent issue), clear
the current task. -/
def stream_ended_early_steps (s : OrchState) (agent_id internal_task_id : String)
    (now : Nat) : List (DispatchPhase × OrchState) × OrchState :=
  let s1 := { s with history := (s.history.update internal_task_id TaskStatus.FAILED
                (some now) (some "Iterator finished before completion")) }
  let s2 := { s1 with registry := (s1.registry.update_status agent_id
                AgentStatus.AVAILABLE none none) }
  let s3 := { s2 with registry := s2.registry.set_current_task agent_id none }
  ([(DispatchPhase.releaseWindow, s1), (DispatchPhase.donePhase, s2),
    (DispatchPhase.donePhase, s3)], s3)

/-- JSON-RPC error envelope (`main.py` lines 889-895): finalise FAILED with
the error text, release the agent AVAILABLE, clear the current task. -/
def rpc_error_steps (s : OrchState) (agent_id internal_task_id : String)
    (err : String) (now : Nat) : List (DispatchPhase × OrchState) × OrchState :=
  let s1 := { s with history := (s.history.update internal_task_id TaskStatus.FAILED
                (some now) (some err)) }
  let s2 := { s1 with registry := (s1.registry.update_status agent_id
                AgentStatus.AVAILABLE none none) }
  let s3 := { s2 with registry := s2.registry.set_current_task agent_id none }
  ([(DispatchPhase.releaseWindow, s1), (DispatchPhase.donePhase, s2),
    (DispatchPhase.donePhase, s3)], s3)

/-- Generic exception handler (`main.py` lines 930-940): finalise FAILED with
the exception text, mark the agent BROKEN(OFFLINE), clear the current task,
enqueue `(agent_id, now)`, re-raise. -/
def exception_steps (s : OrchState) (agent_id internal_task_id : String)
    (err : String) (now : Nat) : List (DispatchPhase × OrchState) × OrchState :=
  let s1 := { s with history := (s.history.update internal_task_id TaskStatus.FAILED
                (some now) (some err)) }
  let s2 := { s1 with registry := (s1.registry.update_status agent_id AgentStatus.BROKEN
                (some BrokenReason.OFFLINE) none) }
  let s3 := { s2 with registry := s2.registry.set_current_task agent_id none }
  let s4 := { s3 with cancellation_queue := s3.cancellation_queue ++ [(agent_id, now)] }
  ([(DispatchPhase.releaseWindow, s1), (DispatchPhase.donePhase, s2),
    (DispatchPhase.donePhase, s3), (DispatchPhase.donePhase, s4)], s4)

/-- Event loop of the dispatch (`main.py` lines 860-924).  Arguments after the
configuration: remaining stream events, elapsed seconds, last task snapshot
seen, current shared state, trace so far.  A terminal `failed` or `rejected`
event whose status carries no message routes to the generic exception handler,
because `get_message_text(None)` raises. -/
def send_task_loop (decode : String → Option String)
    (agent_id internal_task_id : String) (t0 timeout endDelay : Nat) :
    List (Nat × StreamEvent) → Nat → Option A2A.Task → OrchState →
    List (DispatchPhase × OrchState) →
    List (DispatchPhase × OrchState) × DispatchExit × OrchState
  | [], elapsed, last_task, s, trace =>
    if timeout ≤ elapsed then
      (trace ++ (overall_timeout_steps s agent_id internal_task_id (t0 + elapsed)).1, DispatchExit.overallTimeout,
        (overall_timeout_steps s agent_id internal_task_id (t0 + elapsed)).2)
    else if timeout - elapsed < endDelay then
      let stuck := last_task.map (fun t => t.id)
      (trace ++ (per_event_timeout_steps s agent_id internal_task_id stuck (t0 + timeout)).1, DispatchExit.perEventTimeout stuck,
        (per_event_timeout_steps s agent_id internal_task_id stuck (t0 + timeout)).2)
    else
      match last_task with
      | some lt =>
        if isTerminalTaskState lt.status.state then
          (trace ++ (finish_stream_end_steps decode s agent_id internal_task_id lt (t0 + elapsed + endDelay)).1, DispatchExit.completedOk lt,
            (finish_stream_end_steps decode s agent_id internal_task_id lt (t0 + elapsed + endDelay)).2)
        else
          (trace ++ (stream_ended_early_steps s agent_id internal_task_id (t0 + elapsed + endDelay)).1, DispatchExit.streamEndedEarly,
            (stream_ended_early_steps s agent_id internal_task_id (t0 + elapsed + endDelay)).2)
      | none =>
        (trace ++ (stream_ended_early_steps s agent_id internal_task_id (t0 + elapsed + endDelay)).1, DispatchExit.streamEndedEarly,
          (stream_ended_early_steps s agent_id internal_task_id (t0 + elapsed + endDelay)).2)
  | (d, ev) :: rest, elapsed, last_task, s, trace =>
    if timeout ≤ elapsed then
      (trace ++ (overall_timeout_steps s agent_id internal_task_id (t0 + elapsed)).1, DispatchExit.overallTimeout,
        (overall_timeout_steps s agent_id internal_task_id (t0 + elapsed)).2)
    else if timeout - elapsed < d then
      let stuck := last_task.map (fun t => t.id)
      (trace ++ (per_event_timeout_steps s agent_id internal_task_id stuck (t0 + timeout)).1, DispatchExit.perEventTimeout stuck,
        (per_event_timeout_steps s agent_id internal_task_id stuck (t0 + timeout)).2)
    else
      match ev with
      | StreamEvent.message _ =>
        send_task_loop decode agent_id internal_task_id t0 timeout endDelay
          rest (elapsed + d) last_task s trace
      | StreamEvent.rpcError err =>
        (trace ++ (rpc_error_steps s agent_id internal_task_id err (t0 + elapsed + d)).1, DispatchExit.rpcErrorExit err,
          (rpc_error_steps s agent_id internal_task_id err (t0 + elapsed + d)).2)
      | StreamEvent.transportError err =>
        (trace ++ (exception_steps s agent_id internal_task_id err (t0 + elapsed + d)).1, DispatchExit.exceptionExit err,
          (exception_steps s agent_id internal_task_id err (t0 + elapsed + d)).2)
      | StreamEvent.taskEvent t =>
        if isTerminalTaskState t.status.state then
          if t.status.state ≠ A2A.TaskState.completed ∧ t.status.message = none then
            (trace ++ (exception_steps s agent_id internal_task_id "AttributeError" (t0 + elapsed + d)).1, DispatchExit.exceptionExit "AttributeError",
              (exception_steps s agent_id internal_task_id "AttributeError" (t0 + elapsed + d)).2)
          else
            (trace ++ (finish_terminal_event_steps decode s agent_id internal_task_id t (t0 + elapsed + d)).1, DispatchExit.completedOk t,
              (finish_terminal_event_steps decode s agent_id internal_task_id t (t0 + elapsed + d)).2)
        else
          send_task_loop decode agent_id internal_task_id t0 timeout endDelay
            rest (elapsed + d) (some t) s trace

/-- Result of a dispatch: the trace of observable states, the exit taken, and
the final shared state. -/
structure DispatchResult where
  trace : List (DispatchPhase × OrchState)
  exitKind : DispatchExit
  final : OrchState
deriving DecidableEq, Repr

/-- Full dispatch (`_send_task_to_agent_with_message` body, lines 832-925,
together with the reservation step that precedes it: `_wait_and_reserve_agent`
marks the agent BUSY at line 994 and the dispatcher then records the RUNNING
task and sets the current task at lines 841-850).  Between the BUSY mark and
`set_current_task` lie several awaits (`get_name`, `task_history.add`), so
both intermediate states are observable. -/
def send_task_to_agent_with_message (decode : String → Option String)
    (s0 : OrchState) (agent_id internal_task_id task_description : String)
    (t0 timeout endDelay : Nat) (events : List (Nat × StreamEvent)) :
    DispatchResult :=
  let s1 := { s0 with registry := (s0.registry.update_status agent_id
                AgentStatus.BUSY none none) }
  let agent_name := s1.registry.get_name agent_id
  let record : TaskRecord :=
    { task_id := internal_task_id, agent_id := agent_id, agent_name := agent_name,
      description := task_description, status := TaskStatus.RUNNING,
      start_time := t0, end_time := none, error_message := none, agent_logs := [] }
  let s2 := { s1 with history := s1.history.add record }
  let s3 := { s2 with registry := (s2.registry.set_current_task agent_id
                (some internal_task_id)) }
  let out := send_task_loop decode agent_id internal_task_id t0 timeout endDelay
    events 0 none s3
    [(DispatchPhase.reserveWindow, s1), (DispatchPhase.reserveWindow, s2),
     (DispatchPhase.runningPhase, s3)]
  { trace := out.1, exitKind := out.2.1, final := out.2.2 }

/-! ### Worker-pool scheduler (`main.py`, `_agent_worker` lines 593-653 and
`_execute_single_test` lines 656-700)

The work queue is an in-order list (`asyncio.Queue` is FIFO); one worker step
is one pass of the worker's `while True` body.  The results-extractor LLM, the
JSON serialiser, and the dispatcher are function parameters.  Python call
semantics are kept for the dispatcher invocation: `_send_task_to_agent` is
declared with two positional parameters (`main.py` line 943) and calling it
with a different number of positional arguments raises `TypeError`.
-/

/-- Exceptions relevant to the worker path: `TypeError` from a mismatched call
and `HTTPException(status_code, detail)` raised by `_handle_exception`. -/
inductive PyError where
  | typeError (msg : String)
  | httpException (status_code : Nat) (detail : String)
deriving DecidableEq, Repr

/-- Text rendering of an exception (`str(e)`); FastAPI renders an
`HTTPException` as `status_code: detail`. -/
def pyErrorText : PyError → String
  | PyError.typeError m => m
  | PyError.httpException code detail => toString code ++ ": " ++ detail

/-- Message of the `TypeError` raised when `_send_task_to_agent` is called
with three positional arguments. -/
def send_task_to_agent_arity_error_message : String :=
  "_send_task_to_agent() takes 2 positional arguments but 3 were given"

/-- Positional call of `_send_task_to_agent` (declared
`async def _send_task_to_agent(input_data: str, task_description: str)` at
`main.py` line 943): the underlying dispatch runs only when exactly two
positional arguments are supplied, any other arity raises `TypeError`. -/
def call_send_task_to_agent (dispatch : String → String → Except PyError A2A.Task)
    (args : List String) : Except PyError A2A.Task :=
  match args with
  | [input_data, task_description] => dispatch input_data task_description
  | _ => Except.error (PyError.typeError send_task_to_agent_arity_error_message)

/-- Test case (`common/models.py`, `TestCase`); `key` is kept as a plain string
(the execution workflows require it to be set). -/
structure TestCase where
  key : String
  labels : List String
  name : String
  summary : String
  comment : String
  preconditions : Option String
  steps : List String
  parent_issue_key : Option String
deriving DecidableEq, Repr

/-- Execution request sent to an agent (`common/models.py`,
`TestExecutionRequest`). -/
structure TestExecutionRequest where
  test_case : TestCase
deriving DecidableEq, Repr

/-- Result of a single test step (`common/models.py`, `TestStepResult`). -/
structure TestStepResult where
  stepDescription : String
  testData : List String
  expectedResults : String
  actualResults : String
  success : Bool
  errorMessage : String
deriving DecidableEq, Repr

/-- Result of a test case execution (`common/models.py`,
`TestExecutionResult`); the recursive `incident_creation_result` field is not
read by the worker path and is omitted. -/
structure TestExecutionResult where
  stepResults : List TestStepResult
  testCaseKey : String
  testCaseName : String
  testExecutionStatus : String
  generalErrorMessage : String
  artifacts : Option (List A2A.FileWithBytes)
  start_timestamp : String
  end_timestamp : String
  system_description : Option String
  test_case : Option TestCase
deriving DecidableEq, Repr

/-- Artifact retrieval and validation (`main.py`, `_get_artifacts_from_task`
with `_validate_task_status`): a non-completed state or an empty artifact list
raises through `_handle_exception` (default status 500). -/
def get_artifacts_from_task (task : A2A.Task) : Except PyError (List A2A.Artifact) :=
  if task.status.state ≠ A2A.TaskState.completed then
    Except.error (PyError.httpException 500 "Task has an unexpected status")
  else if task.artifacts.isEmpty then
    Except.error (PyError.httpException 500 "Received no execution results from the agent")
  else Except.ok task.artifacts

/-- Single-item execution (`main.py`, `_execute_single_test`).  The dispatcher
call at line 663 passes three positional arguments
(`agent_id, execution_request.model_dump_json(), task_description`); any
exception inside the try block (the `TypeError` included) is rewrapped by
`_handle_exception` into an `HTTPException(500)`.  On success the extracted
result gets the test case key, default timestamps, the file artifacts, a
default system description and the full test case attached. -/
def execute_single_test (dispatch : String → String → Except PyError A2A.Task)
    (dumpJson : TestExecutionRequest → String)
    (extract : String → Option TestExecutionResult)
    (registry : AgentRegistry) (agent_id : String) (test_case : TestCase)
    (test_type : String) (start_ts end_ts : String) :
    Except PyError TestExecutionResult :=
  let task_description :=
    "Execution of test case " ++ test_case.key ++ " (type: " ++ test_type ++ ")"
  let execution_request : TestExecutionRequest := { test_case := test_case }
  let tried : Except PyError (List A2A.Artifact) := do
    let completed_task ← call_send_task_to_agent dispatch
      [agent_id, dumpJson execution_request, task_description]
    get_artifacts_from_task completed_task
  match tried with
  | Except.error e =>
    Except.error (PyError.httpException 500
      ("Failed to execute test case " ++ test_case.key ++ ". Error: " ++ pyErrorText e))
  | Except.ok artifacts =>
    let agent_name := registry.get_name agent_id
    if artifacts.isEmpty then
      Except.error (PyError.httpException 500
        ("No test case execution results received from agent " ++ agent_name))
    else
      match get_text_content_from_artifacts artifacts with
      | none =>
        Except.error (PyError.httpException 500
          ("No test case execution information received from agent " ++ agent_name))
      | some text_results =>
        match extract text_results with
        | none =>
          Except.error (PyError.httpException 500
            "Could not map the test execution results received from the agent to the expected format.")
        | some result0 =>
          let r1 := { result0 with testCaseKey := test_case.key }
          let r2 := if r1.start_timestamp = ""
            then { r1 with start_timestamp := start_ts } else r1
          let r3 := if r2.end_timestamp = ""
            then { r2 with end_timestamp := end_ts } else r2
          let file_artifacts := get_file_contents_from_artifacts artifacts
          let r4 := { r3 with artifacts := some file_artifacts }
          let default_sys := "Agent: " ++ agent_name ++ ", Environment: Standard Test Environment"
          let r5 :=
            match r4.system_description with
            | some s => if s = "" then { r4 with system_description := some default_sys } else r4
            | none => { r4 with system_description := some default_sys }
          Except.ok { r5 with test_case := some test_case }

/-- What the worker does after one pass of its loop body. -/
inductive WorkerExitKind where
  | keepLooping
  | blockedOnQueue
  | brokenExit
deriving DecidableEq, Repr

/-- State after one worker step: the registry, the remaining queue, the shared
results, and whether the worker keeps looping or exits. -/
structure WorkerStepResult where
  registry : AgentRegistry
  queue : List (TestCase × String)
  results : List TestExecutionResult
  outcome : WorkerExitKind
deriving DecidableEq, Repr

/-- One pass of the worker loop body (`main.py`, `_agent_worker` lines
596-649): read the status (BROKEN exits, other non-AVAILABLE statuses sleep
and retry); otherwise take the queue head and execute it; on success append a
truthy result; on any exception mark the agent BROKEN(TASK_STUCK), then either
re-queue the item at the tail (if another pool agent is not BROKEN) or append
a synthesised error result, and exit. -/
def agent_worker_step (dispatch : String → String → Except PyError A2A.Task)
    (dumpJson : TestExecutionRequest → String)
    (extract : String → Option TestExecutionResult)
    (r : AgentRegistry) (agent_id : String) (pool_agent_ids : List String)
    (queue : List (TestCase × String)) (results : List TestExecutionResult)
    (now_iso start_ts end_ts : String) : WorkerStepResult :=
  let status := r.get_status agent_id
  if status ≠ AgentStatus.AVAILABLE then
    if status = AgentStatus.BROKEN then
      { registry := r, queue := queue, results := results,
        outcome := WorkerExitKind.brokenExit }
    else
      { registry := r, queue := queue, results := results,
        outcome := WorkerExitKind.keepLooping }
  else
    match queue with
    | [] =>
      { registry := r, queue := queue, results := results,
        outcome := WorkerExitKind.blockedOnQueue }
    | (test_case, test_type) :: rest =>
      match execute_single_test dispatch dumpJson extract r agent_id test_case
        test_type start_ts end_ts with
      | Except.ok result =>
        { registry := r, queue := rest, results := results ++ [result],
          outcome := WorkerExitKind.keepLooping }
      | Except.error e =>
        let r1 := r.update_status agent_id AgentStatus.BROKEN
          (some BrokenReason.TASK_STUCK) none
        let any_agents_alive := pool_agent_ids.any (fun other_id =>
          decide (other_id ≠ agent_id ∧ r1.get_status other_id ≠ AgentStatus.BROKEN))
        if any_agents_alive then
          { registry := r1, queue := rest ++ [(test_case, test_type)],
            results := results, outcome := WorkerExitKind.brokenExit }
        else
          let agent_name := r1.get_name agent_id
          let failed_result : TestExecutionResult :=
            { stepResults := [], testCaseKey := test_case.key,
              testCaseName := test_case.name, testExecutionStatus := "error",
              generalErrorMessage := "All agents failed. Last error from " ++
                agent_name ++ ": " ++ pyErrorText e,
              artifacts := none, start_timestamp := now_iso, end_timestamp := now_iso,
              system_description := some ("Agent: " ++ agent_name ++
                " (Failed - No Retry Available)"),
              test_case := some test_case }
          { registry := r1, queue := rest, results := results ++ [failed_result],
            outcome := WorkerExitKind.brokenExit }

/-! ### Derived notions used by the statements -/

/-- Sequence of `TaskHistory.add` calls. -/
def add_all (h : TaskHistory) (ts : List TaskRecord) : TaskHistory :=
  ts.foldl TaskHistory.add h

/-- Invariant claimed for BUSY agents (spec section 8, property 1): a BUSY
agent has a truthy current task id referring to a history record in RUNNING
state. -/
def busy_invariant (s : OrchState) (agent_id : String) : Prop :=
  s.registry.get_status agent_id = AgentStatus.BUSY →
  ∃ tid, s.registry.get_current_task agent_id = some tid ∧ tid ≠ "" ∧
    ∃ rec, s.history.get_by_id tid = some rec ∧ rec.status = TaskStatus.RUNNING

/-- Contract of the two timeout exits of the event loop, as a predicate on the
`(exit, final state)` pair: a per-event timeout leaves the state produced by
`per_event_timeout_steps` with the reported stuck id at time `t0 + timeout`,
and an overall timeout leaves the state produced by `overall_timeout_steps` at
some elapsed time. -/
@[reducible] def timeoutExitOk (s : OrchState) (agent_id internal_task_id : String)
    (t0 timeout : Nat) (res : DispatchExit × OrchState) : Prop :=
  (∀ lt, res.1 = DispatchExit.perEventTimeout lt →
    res.2 = (per_event_timeout_steps s agent_id internal_task_id lt
      (t0 + timeout)).2) ∧
  (res.1 = DispatchExit.overallTimeout →
    ∃ e, res.2 = (overall_timeout_steps s agent_id internal_task_id (t0 + e)).2)

/-! ### Concrete fixtures for counterexamples and witnesses -/

/-- Card of the example agent. -/
def exCard : AgentCard := { name := "Agent One", url := "http://localhost:9001" }

/-- Registry with exactly one AVAILABLE example agent. -/
def exRegistry : AgentRegistry := AgentRegistry.empty.register "a1" exCard

/-- Shared state with the example registry, an empty default-size history and
an empty recovery channel. -/
def exState : OrchState :=
  { registry := exRegistry, history := TaskHistory.empty 100,
    cancellation_queue := [] }

/-- Remote task snapshot in `working` state with id remote-1. -/
def exWorkingTask : A2A.Task :=
  { id := "remote-1", status := { state := A2A.TaskState.working, message := none },
    artifacts := [] }

/-- Dispatch run used against claim C2: two working events at seconds 3 and 5
against a 5 second budget; the second event lands exactly at the deadline, so
the loop exits through the overall-elapsed check with remote-1 as the last
known remote task. -/
def c2run : DispatchResult :=
  send_task_to_agent_with_message (fun _ => none) exState "a1" "itask-2" "desc"
    1000 5 99 [(3, StreamEvent.taskEvent exWorkingTask),
               (2, StreamEvent.taskEvent exWorkingTask)]

/-- Remote task snapshot in `completed` state. -/
def exCompletedTask : A2A.Task :=
  { id := "remote-1", status := { state := A2A.TaskState.completed, message := none },
    artifacts := [{ parts := [A2A.Part.text "ok"] }] }

/-- Record fixtures for the C8 witness. -/
def c8rec1 : TaskRecord :=
  { task_id := "t1", agent_id := "a1", agent_name := "Agent One",
    description := "d1", status := TaskStatus.COMPLETED, start_time := 1,
    end_time := none, error_message := none, agent_logs := [] }

/-- Second record fixture for the C8 witness. -/
def c8rec2 : TaskRecord :=
  { task_id := "t2", agent_id := "a1", agent_name := "Agent One",
    description := "d2", status := TaskStatus.RUNNING, start_time := 2,
    end_time := none, error_message := none, agent_logs := [] }

/-- History fixture for the C9 witness: one stored record with a recorded
error message. -/
def c9hist : TaskHistory :=
  (TaskHistory.empty 100).add
    { task_id := "t1", agent_id := "a1", agent_name := "Agent One",
      description := "d1", status := TaskStatus.RUNNING, start_time := 1,
      end_time := none, error_message := none, agent_logs := [] }

/-- Registry fixture for the C5 witness: one registered agent, BROKEN with
reason TASK_STUCK and stuck task `rt1`. -/
def c5reg : AgentRegistry :=
  (AgentRegistry.empty.register "a1" exCard).update_status "a1" AgentStatus.BROKEN
    (some BrokenReason.TASK_STUCK) (some "rt1")

/-- Dispatch run used against claim C6: one immediately completed event. -/
def c6run : DispatchResult :=
  send_task_to_agent_with_message (fun _ => none) exState "a1" "itask-6" "desc"
    2000 5 99 [(1, StreamEvent.taskEvent exCompletedTask)]

/-- Observable state at index 2 of the C6 run (the steady loop state). -/
def c6s2 : OrchState :=
  (c6run.trace.getD 2 (DispatchPhase.donePhase, exState)).2

/-- Dispatch run hitting the per-event timeout: one working event at second 3,
then silence against a 5 second budget. -/
def c2perRun : DispatchResult :=
  send_task_to_agent_with_message (fun _ => none) exState "a1" "itask-2p" "desc"
    1000 5 99 [(3, StreamEvent.taskEvent exWorkingTask)]

/-- History fixture for C3: one stored record with id t1. -/
def c3hist : TaskHistory :=
  (TaskHistory.empty 100).add
    { task_id := "t1", agent_id := "a1", agent_name := "Agent One",
      description := "d1", status := TaskStatus.RUNNING, start_time := 1,
      end_time := none, error_message := none, agent_logs := [] }

/-- Completed task whose first artifact carries a file part named
run_log.txt (contains the substring log but not logs). -/
def c3taskRunLog : A2A.Task :=
  { id := "r1", status := { state := A2A.TaskState.completed, message := none },
    artifacts := [{ parts :=
      [A2A.Part.file { name := some "run_log.txt", bytes := "aGVsbG8=" }] }] }

/-- Completed task whose log file part (named agent_logs.txt) sits in the
second artifact; the extraction reads only the first artifact. -/
def c3taskSecondArtifact : A2A.Task :=
  { id := "r2", status := { state := A2A.TaskState.completed, message := none },
    artifacts := [{ parts := [A2A.Part.text "payload"] },
      { parts :=
        [A2A.Part.file { name := some "agent_logs.txt", bytes := "aGVsbG8=" }] }] }

/-- Completed task whose first artifact carries a file part named
agent_logs.txt with decodable bytes. -/
def c3taskStored : A2A.Task :=
  { id := "r3", status := { state := A2A.TaskState.completed, message := none },
    artifacts := [{ parts :=
      [A2A.Part.file { name := some "agent_logs.txt", bytes := "aGVsbG8=" }] }] }

/-- Test case fixture for the C1 witness. -/
def c1case : TestCase :=
  { key := "TC-1", labels := [], name := "Name", summary := "Sum", comment := "",
    preconditions := none, steps := [], parent_issue_key := some "STORY-1" }

/-- Registry fixture for C4 in which the only agent is BROKEN, so the
AVAILABLE snapshot is always empty. -/
def c4brokenReg : AgentRegistry :=
  (AgentRegistry.empty.register "a1" exCard).update_status "a1" AgentStatus.BROKEN
    (some BrokenReason.OFFLINE) none

/-! ## Theorems

Helper lemmas about the dict model, the registry and the history first, then
one theorem (plus witness / counterexample) per claim.
-/

theorem dictGet_dictInsert_self {α : Type} (d : List (String × α)) (k : String)
    (v : α) : dictGet (dictInsert d k v) k = some v := by
  induction d with
  | nil => simp [dictInsert, dictGet]
  | cons p rest ih =>
    obtain ⟨k', v'⟩ := p
    by_cases h : k' = k
    · simp [dictInsert, dictGet, h]
    · simp [dictInsert, dictGet, h, ih]

theorem dictGet_dictInsert_ne {α : Type} (d : List (String × α)) {k a : String}
    (v : α) (h : a ≠ k) : dictGet (dictInsert d k v) a = dictGet d a := by
  have hka : ¬ k = a := fun hc => h hc.symm
  induction d with
  | nil => simp [dictInsert, dictGet, hka]
  | cons p rest ih =>
    obtain ⟨k', v'⟩ := p
    by_cases hk : k' = k
    · subst hk
      simp [dictInsert, dictGet, hka]
    · by_cases ha : k' = a
      · simp [dictInsert, dictGet, hk, ha, h]
      · simp [dictInsert, dictGet, hk, ha, ih]

theorem length_dictInsert_fresh {α : Type} (d : List (String × α)) {k : String}
    (v : α) (h : dictGet d k = none) :
    (dictInsert d k v).length = d.length + 1 := by
  induction d with
  | nil => simp [dictInsert]
  | cons p rest ih =>
    obtain ⟨k', v'⟩ := p
    by_cases hk : k' = k
    · simp [dictGet, hk] at h
    · simp [dictGet, hk] at h
      simp [dictInsert, hk, ih h]

theorem dictGet_dictInsert_cases {α : Type} {d : List (String × α)}
    {k a : String} {v w : α} (h : dictGet (dictInsert d k v) a = some w) :
    (a = k ∧ w = v) ∨ dictGet d a = some w := by
  by_cases hk : a = k
  · subst hk
    rw [dictGet_dictInsert_self] at h
    exact Or.inl ⟨rfl, (Option.some_injective _ h).symm⟩
  · rw [dictGet_dictInsert_ne _ _ hk] at h
    exact Or.inr h

/-! Frame lemmas for the registry operations: which fields each operation can
touch, and how the accessors read the result. -/

theorem cards_update_status (r : AgentRegistry) (a : String) (st : AgentStatus)
    (br : Option BrokenReason) (stuck : Option String) :
    (r.update_status a st br stuck).cards = r.cards := by
  unfold AgentRegistry.update_status
  split
  · match st, br with
    | AgentStatus.BROKEN, some reason =>
      simp only []
      match stuck with
      | some tid => by_cases h : tid = "" <;> simp [h]
      | none => rfl
    | AgentStatus.AVAILABLE, none => rfl
    | AgentStatus.AVAILABLE, some _ => rfl
    | AgentStatus.BUSY, none => rfl
    | AgentStatus.BUSY, some _ => rfl
    | AgentStatus.BROKEN, none => rfl
  · rfl

theorem statuses_update_status (r : AgentRegistry) (a : String) (st : AgentStatus)
    (br : Option BrokenReason) (stuck : Option String)
    (hc : (dictGet r.cards a).isSome) :
    (r.update_status a st br stuck).statuses = dictInsert r.statuses a st := by
  unfold AgentRegistry.update_status
  rw [if_pos hc]
  match st, br with
  | AgentStatus.BROKEN, some reason =>
    simp only []
    match stuck with
    | some tid => by_cases h : tid = "" <;> simp [h]
    | none => rfl
  | AgentStatus.AVAILABLE, none => rfl
  | AgentStatus.AVAILABLE, some _ => rfl
  | AgentStatus.BUSY, none => rfl
  | AgentStatus.BUSY, some _ => rfl
  | AgentStatus.BROKEN, none => rfl

theorem get_status_update_status_self (r : AgentRegistry) (a : String)
    (st : AgentStatus) (br : Option BrokenReason) (stuck : Option String)
    (hc : (dictGet r.cards a).isSome) :
    (r.update_status a st br stuck).get_status a = st := by
  unfold AgentRegistry.get_status
  rw [statuses_update_status r a st br stuck hc, dictGet_dictInsert_self]
  rfl

theorem cards_set_current_task (r : AgentRegistry) (a : String)
    (t : Option String) : (r.set_current_task a t).cards = r.cards := by
  unfold AgentRegistry.set_current_task
  match t with
  | some tid => by_cases h : tid = "" <;> simp [h]
  | none => rfl

theorem statuses_set_current_task (r : AgentRegistry) (a : String)
    (t : Option String) : (r.set_current_task a t).statuses = r.statuses := by
  unfold AgentRegistry.set_current_task
  match t with
  | some tid => by_cases h : tid = "" <;> simp [h]
  | none => rfl

theorem get_status_set_current_task (r : AgentRegistry) (a b : String)
    (t : Option String) : (r.set_current_task a t).get_status b = r.get_status b := by
  unfold AgentRegistry.get_status
  rw [statuses_set_current_task]

theorem get_current_task_set_some (r : AgentRegistry) (a : String) {tid : String}
    (h : tid ≠ "") : (r.set_current_task a (some tid)).get_current_task a = some tid := by
  unfold AgentRegistry.set_current_task AgentRegistry.get_current_task
  simp [h, dictGet_dictInsert_self]

/-! Lemmas about the task history ring buffer. -/

theorem TaskHistory.wellFormed_empty (m : Nat) : (TaskHistory.empty m).WellFormed := by
  intro k oid h
  simp [TaskHistory.empty, dictGet] at h

theorem TaskHistory.wellFormed_add {h : TaskHistory} (t : TaskRecord)
    (hw : h.WellFormed) : (h.add t).WellFormed := by
  intro k oid hk
  simp only [TaskHistory.add] at hk ⊢
  rcases dictGet_dictInsert_cases hk with ⟨_, rfl⟩ | hold
  · simp
  · have := hw _ _ hold
    simp
    omega

theorem TaskHistory.get_by_id_add_self (h : TaskHistory) (t : TaskRecord) :
    (h.add t).get_by_id t.task_id = some t := by
  simp [TaskHistory.add, TaskHistory.get_by_id, dictGet_dictInsert_self,
    List.getElem?_concat_length]

theorem TaskHistory.get_by_id_add_ne (h : TaskHistory) (t : TaskRecord)
    {k : String} (hne : k ≠ t.task_id) (hw : h.WellFormed) :
    (h.add t).get_by_id k = h.get_by_id k := by
  simp only [TaskHistory.add, TaskHistory.get_by_id]
  rw [dictGet_dictInsert_ne _ _ hne]
  cases hk : dictGet h.byId k with
  | none => rfl
  | some oid =>
    have hlt := hw _ _ hk
    simp [List.getElem?_append, hlt]

theorem add_all_cons (h : TaskHistory) (t : TaskRecord) (ts : List TaskRecord) :
    add_all h (t :: ts) = add_all (h.add t) ts := rfl

theorem add_all_snoc (h : TaskHistory) (ts : List TaskRecord) (t : TaskRecord) :
    add_all h (ts ++ [t]) = (add_all h ts).add t := by
  simp [add_all]

theorem TaskHistory.wellFormed_add_all {h : TaskHistory} (ts : List TaskRecord)
    (hw : h.WellFormed) : (add_all h ts).WellFormed := by
  induction ts generalizing h with
  | nil => exact hw
  | cons t rest ih => exact ih (TaskHistory.wellFormed_add t hw)

theorem get_by_id_add_all_ne (ts : List TaskRecord) (h : TaskHistory) {k : String}
    (hk : ∀ u ∈ ts, k ≠ u.task_id) (hw : h.WellFormed) :
    (add_all h ts).get_by_id k = h.get_by_id k := by
  induction ts generalizing h with
  | nil => rfl
  | cons t rest ih =>
    rw [add_all_cons,
      ih (h.add t) (fun u hu => hk u (List.mem_cons_of_mem _ hu))
        (TaskHistory.wellFormed_add t hw),
      TaskHistory.get_by_id_add_ne h t (hk t (List.mem_cons_self _ _)) hw]

theorem add_all_get_by_id_mem (ts : List TaskRecord) (h : TaskHistory)
    (hnd : (ts.map TaskRecord.task_id).Nodup) (hw : h.WellFormed) :
    ∀ t ∈ ts, (add_all h ts).get_by_id t.task_id = some t := by
  induction ts generalizing h with
  | nil => simp
  | cons t rest ih =>
    simp only [List.map_cons, List.nodup_cons] at hnd
    intro u hu
    rcases List.mem_cons.mp hu with hut | hu
    · rw [hut, add_all_cons,
        get_by_id_add_all_ne rest (h.add t)
          (fun v hv hvk => hnd.1 (by
            rw [hvk]; exact List.mem_map_of_mem TaskRecord.task_id hv))
          (TaskHistory.wellFormed_add t hw)]
      exact TaskHistory.get_by_id_add_self h t
    · exact ih (h.add t) hnd.2 (TaskHistory.wellFormed_add t hw) u hu

theorem byId_length_add_all (ts : List TaskRecord) (h : TaskHistory)
    (hfresh : ∀ t ∈ ts, dictGet h.byId t.task_id = none)
    (hnd : (ts.map TaskRecord.task_id).Nodup) :
    (add_all h ts).byId.length = h.byId.length + ts.length := by
  induction ts generalizing h with
  | nil => simp [add_all]
  | cons t rest ih =>
    simp only [List.map_cons, List.nodup_cons] at hnd
    rw [add_all_cons, ih (h.add t) ?_ hnd.2]
    · simp only [TaskHistory.add]
      rw [length_dictInsert_fresh h.byId h.heap.length
        (hfresh t (List.mem_cons_self _ _))]
      simp only [List.length_cons]
      omega
    · intro u hu
      simp only [TaskHistory.add]
      rw [dictGet_dictInsert_ne]
      · exact hfresh u (List.mem_cons_of_mem _ hu)
      · intro hc
        exact hnd.1 (by rw [← hc]; exact List.mem_map_of_mem TaskRecord.task_id hu)

theorem heap_add_all (ts : List TaskRecord) (h : TaskHistory) :
    (add_all h ts).heap = h.heap ++ ts := by
  induction ts generalizing h with
  | nil => simp [add_all]
  | cons t rest ih =>
    rw [add_all_cons, ih]
    simp [TaskHistory.add]

theorem maxSize_add_all (ts : List TaskRecord) (h : TaskHistory) :
    (add_all h ts).maxSize = h.maxSize := by
  induction ts generalizing h with
  | nil => rfl
  | cons t rest ih => rw [add_all_cons, ih]; rfl

theorem ring_add_all_empty (ts : List TaskRecord) (m : Nat) :
    (add_all (TaskHistory.empty m) ts).ring =
      (List.range ts.length).drop (ts.length - m) := by
  induction ts using List.reverseRecOn with
  | nil => simp [add_all, TaskHistory.empty]
  | append_singleton ts t ih =>
    have hms : (add_all (TaskHistory.empty m) ts).maxSize = m :=
      maxSize_add_all ts (TaskHistory.empty m)
    have hhp : (add_all (TaskHistory.empty m) ts).heap = ts := by
      rw [heap_add_all]; rfl
    rw [add_all_snoc]
    simp only [TaskHistory.add, ih, hms, hhp]
    rcases Nat.eq_zero_or_pos m with hm | hm
    · subst hm
      simp only [Nat.sub_zero]
      rw [List.drop_length, List.drop_eq_nil_of_le (by simp [List.length_range])]
    · have hlen1 : (List.drop (ts.length - m) (List.range ts.length) ++
          [ts.length]).length - m ≤
          (List.drop (ts.length - m) (List.range ts.length)).length := by
        simp only [List.length_append, List.length_drop, List.length_range,
          List.length_singleton]
        omega
      rw [List.drop_append_of_le_length hlen1]
      rw [show (ts ++ [t]).length = ts.length + 1 by simp]
      have hlen2 : ts.length + 1 - m ≤ (List.range ts.length).length := by
        simp only [List.length_range]; omega
      rw [List.range_succ, List.drop_append_of_le_length hlen2, List.drop_drop]
      congr 1
      congr 1
      simp only [List.length_append, List.length_drop, List.length_range,
        List.length_singleton]
      omega

theorem filterMap_lookup_range_drop (l : List TaskRecord) (k : Nat) :
    ((List.range l.length).drop k).filterMap (fun i => l[i]?) = l.drop k := by
  induction l using List.reverseRecOn generalizing k with
  | nil => simp
  | append_singleton l a ih =>
    rw [List.length_append, List.length_singleton, List.range_succ]
    by_cases hk : k ≤ l.length
    · rw [List.drop_append_of_le_length (by simp [List.length_range, hk]),
        List.filterMap_append]
      have h1 : ((List.range l.length).drop k).filterMap (fun i => (l ++ [a])[i]?) =
          ((List.range l.length).drop k).filterMap (fun i => l[i]?) := by
        apply List.filterMap_congr
        intro i hi
        have : i < l.length := List.mem_range.mp (List.mem_of_mem_drop hi)
        simp [List.getElem?_append, this]
      rw [h1, ih k]
      simp only [List.filterMap_cons, List.filterMap_nil]
      rw [List.getElem?_concat_length]
      rw [← List.drop_append_of_le_length hk]
    · have hk' : l.length + 1 ≤ k := by omega
      rw [List.drop_eq_nil_of_le (by simp [List.length_range]; omega),
        List.drop_eq_nil_of_le (by simp; omega)]
      simp

theorem get_all_add_all_empty (ts : List TaskRecord) (m : Nat) :
    (add_all (TaskHistory.empty m) ts).get_all =
      (ts.drop (ts.length - m)).reverse := by
  unfold TaskHistory.get_all
  rw [ring_add_all_empty, heap_add_all]
  simp only [TaskHistory.empty, List.nil_append]
  rw [filterMap_lookup_range_drop]

/-- C8: the `_tasks_by_id` index of `TaskHistory` is never pruned when the
`deque(maxlen=max_size)` evicts: after more than `max_size` adds with distinct
ids (the module default is 100), `get_all` returns at most `max_size` records,
every added record (the evicted ones included) is still returned by
`get_by_id`, records beyond the window are no longer in `get_all`, and the
index length equals the total number of adds, growing without bound. -/
theorem C8_index_never_pruned (m : Nat) (ts : List TaskRecord)
    (hnd : (ts.map TaskRecord.task_id).Nodup) (hlen : m < ts.length) :
    task_history_default_max_size = 100 ∧
    (add_all (TaskHistory.empty m) ts).get_all.length ≤ m ∧
    (add_all (TaskHistory.empty m) ts).byId.length = ts.length ∧
    (∀ t ∈ ts, (add_all (TaskHistory.empty m) ts).get_by_id t.task_id = some t) ∧
    (∀ t ∈ ts.take (ts.length - m), t ∉ (add_all (TaskHistory.empty m) ts).get_all) := by
  refine ⟨rfl, ?_, ?_, ?_, ?_⟩
  · rw [get_all_add_all_empty]
    simp only [List.length_reverse, List.length_drop]
    omega
  · have := byId_length_add_all ts (TaskHistory.empty m)
      (fun t _ => rfl) hnd
    simpa [TaskHistory.empty] using this
  · exact add_all_get_by_id_mem ts (TaskHistory.empty m) hnd
      (TaskHistory.wellFormed_empty m)
  · intro t ht hmem
    rw [get_all_add_all_empty] at hmem
    rw [List.mem_reverse] at hmem
    have hsplit : ts.map TaskRecord.task_id =
        (ts.take (ts.length - m)).map TaskRecord.task_id ++
        (ts.drop (ts.length - m)).map TaskRecord.task_id := by
      rw [← List.map_append, List.take_append_drop]
    rw [hsplit] at hnd
    exact (List.nodup_append.mp hnd).2.2
      (List.mem_map_of_mem TaskRecord.task_id ht)
      (List.mem_map_of_mem TaskRecord.task_id hmem)

/-- Witness for C8 at capacity 1 with two distinct records: the ring keeps one
record, the index keeps both, and the evicted first record is still served by
`get_by_id` while absent from `get_all`. -/
theorem C8_index_never_pruned_witness :
    (([c8rec1, c8rec2].map TaskRecord.task_id).Nodup ∧ 1 < 2) ∧
    (add_all (TaskHistory.empty 1) [c8rec1, c8rec2]).get_all.length ≤ 1 ∧
    (add_all (TaskHistory.empty 1) [c8rec1, c8rec2]).byId.length = 2 ∧
    (add_all (TaskHistory.empty 1) [c8rec1, c8rec2]).get_by_id "t1" = some c8rec1 ∧
    c8rec1 ∉ (add_all (TaskHistory.empty 1) [c8rec1, c8rec2]).get_all := by
  have h := C8_index_never_pruned 1 [c8rec1, c8rec2] (by decide) (by decide)
  refine ⟨⟨by decide, by decide⟩, h.2.1, h.2.2.1, ?_, ?_⟩
  · exact h.2.2.2.1 c8rec1 (by decide)
  · exact h.2.2.2.2 c8rec1 (by decide)

/-- Update-then-lookup characterisation of `TaskHistory.update` for a present
id: the stored record gets the new status, a truthy end time overwrites, a
truthy error message overwrites. -/
theorem get_by_id_update_self (h : TaskHistory) (tid : String) (st : TaskStatus)
    (et : Option Nat) (em : Option String) (old : TaskRecord)
    (hold : h.get_by_id tid = some old) :
    (h.update tid st et em).get_by_id tid = some
      { old with
        status := st
        end_time := if et.isSome then et else old.end_time
        error_message := (match em with
          | some s => if s = "" then old.error_message else some s
          | none => old.error_message) } := by
  unfold TaskHistory.get_by_id at hold
  cases hoid : dictGet h.byId tid with
  | none => rw [hoid] at hold; simp at hold
  | some oid =>
    rw [hoid] at hold
    simp only [Option.some_bind] at hold
    have hlt : oid < h.heap.length := by
      by_contra hge
      rw [List.getElem?_eq_none (Nat.le_of_not_lt hge)] at hold
      simp at hold
    unfold TaskHistory.update
    simp only [hoid, hold]
    unfold TaskHistory.get_by_id
    simp only [hoid, Option.some_bind]
    rw [List.getElem?_set_eq_of_lt _ (by simpa using hlt)]

/-- C9: `TaskHistory.update` with an unknown id is a no-op on the whole
history; with a known id it overwrites `status` unconditionally, keeps
`end_time` when the argument is `None`, keeps `error_message` when the
argument is `None` or empty, and in particular a later update with a `None`
error message never clears a previously recorded one. -/
theorem C9_update_frame (h : TaskHistory) (tid : String) (st : TaskStatus)
    (et : Option Nat) (em : Option String) :
    (dictGet h.byId tid = none → h.update tid st et em = h) ∧
    (∀ old, h.get_by_id tid = some old →
      (h.update tid st et em).get_by_id tid = some
        { old with
          status := st
          end_time := if et.isSome then et else old.end_time
          error_message := (match em with
            | some s => if s = "" then old.error_message else some s
            | none => old.error_message) }) ∧
    (∀ old msg, h.get_by_id tid = some old → old.error_message = some msg →
      Option.map TaskRecord.error_message ((h.update tid st et none).get_by_id tid) =
        some (some msg)) := by
  refine ⟨?_, fun old hold => get_by_id_update_self h tid st et em old hold, ?_⟩
  · intro hnone
    unfold TaskHistory.update
    rw [hnone]
  · intro old msg hold hmsg
    rw [get_by_id_update_self h tid st et none old hold]
    simp [hmsg]

/-- Witness for C9: updating a missing id leaves the history untouched, and a
FAILED update with an error message followed by a COMPLETED update with `None`
keeps the recorded error message. -/
theorem C9_update_frame_witness :
    (dictGet c9hist.byId "ghost" = none ∧
      c9hist.update "ghost" TaskStatus.FAILED none none = c9hist) ∧
    Option.map TaskRecord.error_message
      (((c9hist.update "t1" TaskStatus.FAILED (some 5) (some "boom")).update "t1"
        TaskStatus.COMPLETED (some 6) none).get_by_id "t1") = some (some "boom") := by
  constructor
  · exact ⟨by decide,
      (C9_update_frame c9hist "ghost" TaskStatus.FAILED none none).1 (by decide)⟩
  · exact (C9_update_frame (c9hist.update "t1" TaskStatus.FAILED (some 5) (some "boom"))
      "t1" TaskStatus.COMPLETED (some 6) none).2.2
      { task_id := "t1", agent_id := "a1", agent_name := "Agent One",
        description := "d1", status := TaskStatus.FAILED, start_time := 1,
        end_time := some 5, error_message := some "boom", agent_logs := [] }
      "boom" (by decide) (by decide)

/-- C10: a `get_status` read for an agent with no status entry returns BROKEN
(never AVAILABLE and never an error), and a worker whose agent reads BROKEN
exits its loop leaving registry, queue and results untouched. -/
theorem C10_missing_status_reads_broken
    (dispatch : String → String → Except PyError A2A.Task)
    (dumpJson : TestExecutionRequest → String)
    (extract : String → Option TestExecutionResult)
    (r : AgentRegistry) (agent_id : String) (pool_agent_ids : List String)
    (queue : List (TestCase × String)) (results : List TestExecutionResult)
    (now_iso start_ts end_ts : String)
    (hmiss : dictGet r.statuses agent_id = none) :
    r.get_status agent_id = AgentStatus.BROKEN ∧
    agent_worker_step dispatch dumpJson extract r agent_id pool_agent_ids queue
      results now_iso start_ts end_ts =
      { registry := r, queue := queue, results := results,
        outcome := WorkerExitKind.brokenExit } := by
  have hst : r.get_status agent_id = AgentStatus.BROKEN := by
    unfold AgentRegistry.get_status
    rw [hmiss]
    rfl
  refine ⟨hst, ?_⟩
  unfold agent_worker_step
  rw [hst]
  simp

/-! Further registry accessor lemmas used by the recovery and dispatcher
claims. -/

theorem broken_reasons_update_status_broken (r : AgentRegistry) (a : String)
    (rsn : BrokenReason) (stuck : Option String)
    (hc : (dictGet r.cards a).isSome) :
    dictGet (r.update_status a AgentStatus.BROKEN (some rsn) stuck).broken_reasons a
      = some rsn := by
  unfold AgentRegistry.update_status
  rw [if_pos hc]
  match stuck with
  | some tid =>
    by_cases h : tid = "" <;> simp [h, dictGet_dictInsert_self]
  | none => simp [dictGet_dictInsert_self]

theorem stuck_update_status_broken_some (r : AgentRegistry) (a : String)
    (rsn : BrokenReason) {tid : String} (hc : (dictGet r.cards a).isSome)
    (ht : tid ≠ "") :
    dictGet (r.update_status a AgentStatus.BROKEN (some rsn) (some tid)).stuck_task_ids a
      = some tid := by
  unfold AgentRegistry.update_status
  rw [if_pos hc]
  simp [ht, dictGet_dictInsert_self]

theorem stuck_update_status_broken_none (r : AgentRegistry) (a : String)
    (rsn : BrokenReason) (hc : (dictGet r.cards a).isSome) :
    (r.update_status a AgentStatus.BROKEN (some rsn) none).stuck_task_ids
      = r.stuck_task_ids := by
  unfold AgentRegistry.update_status
  rw [if_pos hc]

theorem broken_reasons_set_current_task (r : AgentRegistry) (a : String)
    (t : Option String) :
    (r.set_current_task a t).broken_reasons = r.broken_reasons := by
  unfold AgentRegistry.set_current_task
  match t with
  | some tid => by_cases h : tid = "" <;> simp [h]
  | none => rfl

theorem stuck_set_current_task (r : AgentRegistry) (a : String)
    (t : Option String) :
    (r.set_current_task a t).stuck_task_ids = r.stuck_task_ids := by
  unfold AgentRegistry.set_current_task
  match t with
  | some tid => by_cases h : tid = "" <;> simp [h]
  | none => rfl

/-- C5: one recovery iteration for a BROKEN(TASK_STUCK) agent with a known
stuck task id and a registered card: a `canceled` ack, or a successful
reachability probe after a failed cancel, sets the agent AVAILABLE without
re-enqueueing; a failed cancel plus a failed probe downgrades the reason to
OFFLINE (the agent stays BROKEN and is not set AVAILABLE), sleeps 60 seconds
and re-enqueues the tuple with its original timestamp; an entry older than 24
hours is dropped without touching the registry. -/
theorem C5_recovery_task_stuck (r : AgentRegistry) (agent_id : String)
    (timestamp now : Nat) (tid : String)
    (hctx : r.get_broken_context agent_id = (some BrokenReason.TASK_STUCK, some tid))
    (htid : tid ≠ "") (hcard : (r.get_card agent_id).isSome) :
    (now - timestamp ≤ 24 * 3600 →
      (∀ probe, (retry_cancellation_iteration r agent_id timestamp now true
          probe).registry.get_status agent_id = AgentStatus.AVAILABLE ∧
        (retry_cancellation_iteration r agent_id timestamp now true probe).requeued = none) ∧
      ((retry_cancellation_iteration r agent_id timestamp now false
          true).registry.get_status agent_id = AgentStatus.AVAILABLE ∧
        (retry_cancellation_iteration r agent_id timestamp now false true).requeued = none) ∧
      ((retry_cancellation_iteration r agent_id timestamp now false
          false).registry.get_status agent_id = AgentStatus.BROKEN ∧
        ((retry_cancellation_iteration r agent_id timestamp now false
          false).registry.get_broken_context agent_id).1 = some BrokenReason.OFFLINE ∧
        (retry_cancellation_iteration r agent_id timestamp now false false).requeued
          = some (agent_id, timestamp) ∧
        (retry_cancellation_iteration r agent_id timestamp now false
          false).sleep_seconds = 60)) ∧
    (24 * 3600 < now - timestamp → ∀ cancel probe,
      retry_cancellation_iteration r agent_id timestamp now cancel probe =
        { registry := r, requeued := none, sleep_seconds := 0, gave_up := true,
          skipped_no_card := false }) := by
  obtain ⟨card, hc⟩ := Option.isSome_iff_exists.mp hcard
  have hcards : (dictGet r.cards agent_id).isSome := hcard
  constructor
  · intro hage
    have hnage : ¬ 24 * 3600 < now - timestamp := Nat.not_lt.mpr hage
    have hred1 : ∀ probe, retry_cancellation_iteration r agent_id timestamp now
        true probe = recovery_recovered r agent_id := by
      intro probe
      unfold retry_cancellation_iteration
      rw [if_neg hnage]
      simp [hctx, hc, htid]
    have hred2 : retry_cancellation_iteration r agent_id timestamp now false true
        = recovery_recovered r agent_id := by
      unfold retry_cancellation_iteration
      rw [if_neg hnage]
      simp [hctx, hc, htid]
    have hred3 : retry_cancellation_iteration r agent_id timestamp now false false
        = recovery_not_recovered (r.update_status agent_id AgentStatus.BROKEN
            (some BrokenReason.OFFLINE) none) agent_id timestamp := by
      unfold retry_cancellation_iteration
      rw [if_neg hnage]
      simp [hctx, hc, htid]
    have havail : (recovery_recovered r agent_id).registry.get_status agent_id =
        AgentStatus.AVAILABLE := by
      unfold recovery_recovered
      exact get_status_update_status_self r agent_id AgentStatus.AVAILABLE none none hcards
    refine ⟨?_, ?_, ?_⟩
    · intro probe
      rw [hred1 probe]
      exact ⟨havail, rfl⟩
    · rw [hred2]
      exact ⟨havail, rfl⟩
    · rw [hred3]
      refine ⟨?_, ?_, rfl, rfl⟩
      · unfold recovery_not_recovered
        exact get_status_update_status_self _ agent_id AgentStatus.BROKEN
          (some BrokenReason.OFFLINE) none hcards
      · unfold recovery_not_recovered AgentRegistry.get_broken_context
        simp only []
        rw [broken_reasons_update_status_broken r agent_id BrokenReason.OFFLINE none hcards]
  · intro hage cancel probe
    unfold retry_cancellation_iteration
    rw [if_pos hage]

/-- Witness for C5: the three recovery outcomes and the 24 hour drop evaluated
on a concrete broken agent. -/
theorem C5_recovery_task_stuck_witness :
    (c5reg.get_broken_context "a1" = (some BrokenReason.TASK_STUCK, some "rt1") ∧
      (c5reg.get_card "a1").isSome ∧ (100 : Nat) - 50 ≤ 24 * 3600) ∧
    (retry_cancellation_iteration c5reg "a1" 50 100 true false).registry.get_status "a1"
      = AgentStatus.AVAILABLE ∧
    (retry_cancellation_iteration c5reg "a1" 50 100 false true).registry.get_status "a1"
      = AgentStatus.AVAILABLE ∧
    ((retry_cancellation_iteration c5reg "a1" 50 100 false false).registry.get_broken_context
      "a1").1 = some BrokenReason.OFFLINE ∧
    (retry_cancellation_iteration c5reg "a1" 50 100 false false).requeued = some ("a1", 50) ∧
    (retry_cancellation_iteration c5reg "a1" 50 100 false false).sleep_seconds = 60 ∧
    retry_cancellation_iteration c5reg "a1" 50 (50 + 24 * 3600 + 1) false false =
      { registry := c5reg, requeued := none, sleep_seconds := 0, gave_up := true,
        skipped_no_card := false } := by
  have h := C5_recovery_task_stuck c5reg "a1" 50 100 "rt1" (by decide) (by decide)
    (by decide)
  have h1 := (h.1 (by decide)).1 false
  have h2 := (h.1 (by decide)).2.1
  have h3 := (h.1 (by decide)).2.2
  have h4 := C5_recovery_task_stuck c5reg "a1" 50 (50 + 24 * 3600 + 1) "rt1"
    (by decide) (by decide) (by decide)
  exact ⟨⟨by decide, by decide, by decide⟩, h1.1, h2.1, h3.2.1, h3.2.2.1, h3.2.2.2,
    h4.2 (by decide) false false⟩

/-- Witness for C10 on the empty registry. -/
theorem C10_missing_status_reads_broken_witness :
    dictGet AgentRegistry.empty.statuses "ghost" = none ∧
    AgentRegistry.empty.get_status "ghost" = AgentStatus.BROKEN ∧
    agent_worker_step (fun _ _ => Except.error (PyError.typeError ""))
      (fun _ => "") (fun _ => none) AgentRegistry.empty "ghost" [] [] [] "n" "s" "e" =
      { registry := AgentRegistry.empty, queue := [], results := [],
        outcome := WorkerExitKind.brokenExit } := by
  have h := C10_missing_status_reads_broken
    (fun _ _ => Except.error (PyError.typeError "")) (fun _ => "") (fun _ => none)
    AgentRegistry.empty "ghost" [] [] [] "n" "s" "e" (by decide)
  exact ⟨by decide, h.1, h.2⟩

/-- C7: evaluation of the dashboard log parser at a line of unknown shape
(`Just a message`, no timestamp): the level degrades to INFO and the whole
line becomes the message as the claim states, but the missing timestamp is
filled with `datetime.now().isoformat()` (here the `now` argument), not with
the empty string the claim (and the repository test
`test_parse_agent_logs_fallback_timestamp`) demands. -/
theorem C7_missing_timestamp_uses_now :
    parse_agent_logs (fun _ => none) "2026-01-06T16:20:30" ["Just a message"]
      "task-1" "agent-1" =
      [{ timestamp := "2026-01-06T16:20:30", level := "INFO",
         logger_name := "agent.agent-1", message := "Just a message",
         task_id := some "task-1", agent_id := some "agent-1" }] ∧
    ("2026-01-06T16:20:30" : String) ≠ "" := by
  exact ⟨by decide, by decide⟩

/-- C3 counterexample: the source filter requires the substring logs, not
log, and reads only the first artifact.  A part named run_log.txt satisfies
the claim filter (substring log, suffix .txt) yet nothing is stored; a part
named agent_logs.txt in the second artifact is not extracted either. -/
theorem C3_log_filter_counterexample :
    specLogArtifactName "run_log.txt" = true ∧
    get_execution_logs_from_artifacts (fun _ => some "hello")
      [{ name := some "run_log.txt", bytes := "aGVsbG8=" }]
      orchestrator_log_filename_pattern = [] ∧
    save_agent_logs_from_task (fun _ => some "hello") c3hist c3taskRunLog "t1"
      = c3hist ∧
    save_agent_logs_from_task (fun _ => some "hello") c3hist c3taskSecondArtifact
      "t1" = c3hist ∧
    Option.map TaskRecord.agent_logs
      ((save_agent_logs_from_task (fun _ => some "hello") c3hist c3taskRunLog
        "t1").get_by_id "t1") = some [] := by
  refine ⟨by decide, by decide, by decide, by decide, by decide⟩

/-- C3 as amended: a file part of the first artifact whose name contains the
substring logs (case-insensitively), ends in .txt or .log and has truthy
bytes that decode, gets its decoded content stored on the task record with
the dispatch's internal id (the storage method is modelled from the spec). -/
theorem C3_first_artifact_logs_stored (decode : String → Option String)
    (h : TaskHistory) (task : A2A.Task) (internal_task_id : String)
    (fa : A2A.FileWithBytes) (content : String)
    (hmem : fa ∈ get_file_contents_from_artifacts task.artifacts)
    (hmatch : log_artifact_content decode orchestrator_log_filename_pattern fa
      = some content)
    (hrec : (h.get_by_id internal_task_id).isSome) :
    ∃ rec, (save_agent_logs_from_task decode h task
        internal_task_id).get_by_id internal_task_id = some rec ∧
      content ∈ rec.agent_logs := by
  obtain ⟨old, hold⟩ := Option.isSome_iff_exists.mp hrec
  set fas := get_file_contents_from_artifacts task.artifacts with hfas
  have hne : ¬ fas.isEmpty := by
    cases hfa : fas with
    | nil => rw [hfa] at hmem; simp at hmem
    | cons a l => simp [hfa]
  have hlogs : get_execution_logs_from_artifacts decode fas
      orchestrator_log_filename_pattern =
      fas.filterMap (log_artifact_content decode orchestrator_log_filename_pattern) := by
    unfold get_execution_logs_from_artifacts
    rw [if_neg hne]
  have hcontent : content ∈ get_execution_logs_from_artifacts decode fas
      orchestrator_log_filename_pattern := by
    rw [hlogs]
    exact List.mem_filterMap.mpr ⟨fa, hmem, hmatch⟩
  have hlne : ¬ (get_execution_logs_from_artifacts decode fas
      orchestrator_log_filename_pattern).isEmpty := by
    cases hl : get_execution_logs_from_artifacts decode fas
        orchestrator_log_filename_pattern with
    | nil => rw [hl] at hcontent; simp at hcontent
    | cons a l => simp [hl]
  unfold save_agent_logs_from_task
  rw [← hfas, if_neg hlne]
  unfold TaskHistory.get_by_id at hold
  cases hoid : dictGet h.byId internal_task_id with
  | none => rw [hoid] at hold; simp at hold
  | some oid =>
    rw [hoid] at hold
    simp only [Option.some_bind] at hold
    have hlt : oid < h.heap.length := by
      by_contra hge
      rw [List.getElem?_eq_none (Nat.le_of_not_lt hge)] at hold
      simp at hold
    refine ⟨{ old with agent_logs := (get_execution_logs_from_artifacts decode fas
      orchestrator_log_filename_pattern) }, ?_, hcontent⟩
    unfold TaskHistory.update_logs
    simp only [hoid, hold]
    unfold TaskHistory.get_by_id
    simp only [hoid, Option.some_bind]
    rw [List.getElem?_set_eq_of_lt _ (by simpa using hlt)]

/-- Witness for the amended C3: a part named agent_logs.txt in the first
artifact, with bytes decoding to hello, is stored on record t1. -/
theorem C3_first_artifact_logs_stored_witness :
    ({ name := some "agent_logs.txt", bytes := "aGVsbG8=" } ∈
        get_file_contents_from_artifacts c3taskStored.artifacts ∧
      log_artifact_content (fun _ => some "hello")
        orchestrator_log_filename_pattern
        { name := some "agent_logs.txt", bytes := "aGVsbG8=" } = some "hello" ∧
      (c3hist.get_by_id "t1").isSome) ∧
    ∃ rec, (save_agent_logs_from_task (fun _ => some "hello") c3hist c3taskStored
        "t1").get_by_id "t1" = some rec ∧ "hello" ∈ rec.agent_logs := by
  refine ⟨⟨by decide, by decide, by decide⟩, ?_⟩
  exact C3_first_artifact_logs_stored (fun _ => some "hello") c3hist c3taskStored
    "t1" { name := some "agent_logs.txt", bytes := "aGVsbG8=" } "hello"
    (by decide) (by decide) (by decide)

/-- C1: evaluation of the worker path.  `_execute_single_test` calls
`_send_task_to_agent(agent_id, execution_request.model_dump_json(),
task_description)` (main.py line 663) while `_send_task_to_agent` takes two
positional parameters (line 943), so the call raises `TypeError` before any
dispatch: for an AVAILABLE worker the single-item execution always fails with
the rewrapped 500, the step result does not depend on the dispatcher at all
(no dispatch is performed, so no extracted TestExecutionResult is appended),
and the worker marks its agent BROKEN and exits. -/
theorem C1_worker_dispatch_arity_bug
    (dispatch dispatch2 : String → String → Except PyError A2A.Task)
    (dumpJson : TestExecutionRequest → String)
    (extract : String → Option TestExecutionResult)
    (r : AgentRegistry) (agent_id : String) (pool_agent_ids : List String)
    (test_case : TestCase) (test_type : String) (rest : List (TestCase × String))
    (results : List TestExecutionResult) (now_iso start_ts end_ts : String)
    (hstatus : r.get_status agent_id = AgentStatus.AVAILABLE)
    (hcard : (dictGet r.cards agent_id).isSome) :
    execute_single_test dispatch dumpJson extract r agent_id test_case test_type
      start_ts end_ts = Except.error (PyError.httpException 500
        ("Failed to execute test case " ++ test_case.key ++ ". Error: " ++
          send_task_to_agent_arity_error_message)) ∧
    agent_worker_step dispatch dumpJson extract r agent_id pool_agent_ids
      ((test_case, test_type) :: rest) results now_iso start_ts end_ts =
      agent_worker_step dispatch2 dumpJson extract r agent_id pool_agent_ids
        ((test_case, test_type) :: rest) results now_iso start_ts end_ts ∧
    (agent_worker_step dispatch dumpJson extract r agent_id pool_agent_ids
      ((test_case, test_type) :: rest) results now_iso start_ts end_ts).outcome
      = WorkerExitKind.brokenExit ∧
    (agent_worker_step dispatch dumpJson extract r agent_id pool_agent_ids
      ((test_case, test_type) :: rest) results now_iso start_ts
      end_ts).registry.get_status agent_id = AgentStatus.BROKEN := by
  have hexec : ∀ d : String → String → Except PyError A2A.Task,
      execute_single_test d dumpJson extract r agent_id test_case test_type
        start_ts end_ts = Except.error (PyError.httpException 500
          ("Failed to execute test case " ++ test_case.key ++ ". Error: " ++
            send_task_to_agent_arity_error_message)) := by
    intro d
    rfl
  have hne : ¬ (AgentStatus.AVAILABLE ≠ AgentStatus.AVAILABLE) := by simp
  refine ⟨hexec dispatch, ?_, ?_, ?_⟩
  · unfold agent_worker_step
    rw [hstatus, if_neg hne]
    simp only [hexec dispatch, hexec dispatch2]
    rfl
  · unfold agent_worker_step
    rw [hstatus, if_neg hne]
    simp only [hexec dispatch]
    split <;> rfl
  · unfold agent_worker_step
    rw [hstatus, if_neg hne]
    simp only [hexec dispatch]
    split
    · exact get_status_update_status_self r agent_id AgentStatus.BROKEN
        (some BrokenReason.TASK_STUCK) none hcard
    · exact get_status_update_status_self r agent_id AgentStatus.BROKEN
        (some BrokenReason.TASK_STUCK) none hcard

/-- Witness for C1: the concrete worker on an AVAILABLE registered agent. -/
theorem C1_worker_dispatch_arity_bug_witness :
    (exRegistry.get_status "a1" = AgentStatus.AVAILABLE ∧
      (dictGet exRegistry.cards "a1").isSome) ∧
    execute_single_test (fun _ _ => Except.error (PyError.typeError "unused"))
      (fun _ => "json") (fun _ => none) exRegistry "a1" c1case "UI" "s" "e" =
      Except.error (PyError.httpException 500
        ("Failed to execute test case " ++ "TC-1" ++ ". Error: " ++
          send_task_to_agent_arity_error_message)) ∧
    (agent_worker_step (fun _ _ => Except.error (PyError.typeError "unused"))
      (fun _ => "json") (fun _ => none) exRegistry "a1" ["a1"] [(c1case, "UI")]
      [] "n" "s" "e").outcome = WorkerExitKind.brokenExit ∧
    (agent_worker_step (fun _ _ => Except.error (PyError.typeError "unused"))
      (fun _ => "json") (fun _ => none) exRegistry "a1" ["a1"] [(c1case, "UI")]
      [] "n" "s" "e").registry.get_status "a1" = AgentStatus.BROKEN := by
  have h := C1_worker_dispatch_arity_bug
    (fun _ _ => Except.error (PyError.typeError "unused"))
    (fun _ _ => Except.error (PyError.typeError "other"))
    (fun _ => "json") (fun _ => none) exRegistry "a1" ["a1"] c1case "UI" [] []
    "n" "s" "e" (by decide) (by decide)
  exact ⟨⟨by decide, by decide⟩, h.1, h.2.2.1, h.2.2.2⟩

/-- Loop lemma for C4: when every snapshot of AVAILABLE ids is empty, the
reservation loop ends in the 503 timeout, and the recorded sleeps form the
back-off chain (each sleep is the previous one times 1.5, capped at 30,
starting at 2). -/
theorem wait_loop_all_busy (registryAt registryCheckAt : Nat → AgentRegistry)
    (select : Nat → Option String) (mw : ℚ)
    (hav : ∀ k, (registryAt k).get_available_agents = []) :
    ∀ (fuel n : Nat) (clock w : ℚ) (sleeps : List ℚ),
    2 ≤ w →
    mw ≤ clock + 2 * (fuel : ℚ) →
    List.Chain' (fun a b => b = min (a * (3 / 2)) max_wait_interval) (sleeps ++ [w]) →
    (sleeps = [] → clock = 0 ∧ w = 2) →
    (sleeps ≠ [] → sleeps.head? = some 2) →
    (wait_and_reserve_loop registryAt registryCheckAt select mw (fuel + 1) n clock
        w sleeps).1 = ReserveOutcome.reservationTimeout ∧
    List.Chain' (fun a b => b = min (a * (3 / 2)) max_wait_interval)
      (wait_and_reserve_loop registryAt registryCheckAt select mw (fuel + 1) n clock
        w sleeps).2 ∧
    (0 < mw →
      (wait_and_reserve_loop registryAt registryCheckAt select mw (fuel + 1) n clock
        w sleeps).2.head? = some 2) := by
  intro fuel
  induction fuel with
  | zero =>
    intro n clock w sleeps hw hclk hchain hnil hhead
    have hmw : mw ≤ clock := by push_cast at hclk; linarith
    simp only [wait_and_reserve_loop, if_pos hmw]
    refine ⟨trivial, (List.chain'_append.mp hchain).1, ?_⟩
    intro h0
    have hne : sleeps ≠ [] := by
      intro he
      have := (hnil he).1
      rw [this] at hmw
      linarith
    exact hhead hne
  | succ fuel ih =>
    intro n clock w sleeps hw hclk hchain hnil hhead
    by_cases hmw : mw ≤ clock
    · simp only [wait_and_reserve_loop, if_pos hmw]
      refine ⟨trivial, (List.chain'_append.mp hchain).1, ?_⟩
      intro h0
      have hne : sleeps ≠ [] := by
        intro he
        have := (hnil he).1
        rw [this] at hmw
        linarith
      exact hhead hne
    · have hstep : wait_and_reserve_loop registryAt registryCheckAt select mw
          (fuel + 1 + 1) n clock w sleeps =
          wait_and_reserve_loop registryAt registryCheckAt select mw (fuel + 1)
            (n + 1) (clock + w) (min (w * (3 / 2)) max_wait_interval)
            (sleeps ++ [w]) := by
        simp only [wait_and_reserve_loop, if_neg hmw, hav n, List.isEmpty_nil,
          if_true]
      rw [hstep]
      have hw' : (2 : ℚ) ≤ min (w * (3 / 2)) max_wait_interval := by
        apply le_min
        · linarith
        · unfold max_wait_interval
          norm_num
      have hclk' : mw ≤ clock + w + 2 * (fuel : ℚ) := by
        push_cast at hclk ⊢
        linarith
      have hchain' : List.Chain' (fun a b => b = min (a * (3 / 2)) max_wait_interval)
          ((sleeps ++ [w]) ++ [min (w * (3 / 2)) max_wait_interval]) := by
        refine List.chain'_append.mpr ⟨hchain, List.chain'_singleton _, ?_⟩
        intro x hx y hy
        rw [List.getLast?_concat] at hx
        simp only [List.head?_cons, Option.mem_def, Option.some_inj] at hx hy
        rw [← hx, ← hy]
      have hnil' : sleeps ++ [w] = [] → clock + w = 0 ∧
          min (w * (3 / 2)) max_wait_interval = 2 := by
        intro he
        exact absurd he (by simp)
      have hhead' : sleeps ++ [w] ≠ [] → (sleeps ++ [w]).head? = some 2 := by
        intro _
        rw [List.head?_append]
        cases sleeps with
        | nil =>
          rw [(hnil rfl).2]
          rfl
        | cons a l =>
          have h2 := hhead (by simp)
          rw [h2]
          rfl
      exact ih (n + 1) (clock + w) (min (w * (3 / 2)) max_wait_interval)
        (sleeps ++ [w]) hw' hclk' hchain' hnil' hhead'

/-- C4: wait-and-reserve fails immediately with 404 (NoAgents) on an empty
registry; with a non-empty registry but no AVAILABLE agent in any snapshot it
sleeps the exponential back-off starting at 2 s, multiplying by 1.5 and
capped at 30 s, and once the overall deadline (the task-execution timeout
passed as `max_wait_time`) elapses it fails with 503 (ReservationTimeout).
The fuel bound `max_wait_time + 2 ≤ 2 * fuel` reflects that each retry sleeps
at least 2 seconds. -/
theorem C4_wait_and_reserve (registryAtEntry : AgentRegistry)
    (registryAt registryCheckAt : Nat → AgentRegistry)
    (select : Nat → Option String) (max_wait_time : ℚ) (fuel : Nat) :
    (registryAtEntry.is_empty = true →
      wait_and_reserve_agent registryAtEntry registryAt registryCheckAt select
          max_wait_time fuel = (ReserveOutcome.noAgentsRegistered, []) ∧
        reserveHTTPStatus ReserveOutcome.noAgentsRegistered = some 404) ∧
    (registryAtEntry.is_empty = false →
      (∀ k, (registryAt k).get_available_agents = []) →
      0 < max_wait_time → max_wait_time + 2 ≤ 2 * fuel →
      (wait_and_reserve_agent registryAtEntry registryAt registryCheckAt select
        max_wait_time fuel).1 = ReserveOutcome.reservationTimeout ∧
      reserveHTTPStatus ReserveOutcome.reservationTimeout = some 503 ∧
      (wait_and_reserve_agent registryAtEntry registryAt registryCheckAt select
        max_wait_time fuel).2.head? = some 2 ∧
      List.Chain' (fun a b => b = min (a * (3 / 2)) max_wait_interval)
        (wait_and_reserve_agent registryAtEntry registryAt registryCheckAt select
          max_wait_time fuel).2) := by
  constructor
  · intro hemp
    unfold wait_and_reserve_agent
    rw [if_pos hemp]
    exact ⟨rfl, rfl⟩
  · intro hemp hav h0 hfe
    rcases Nat.eq_zero_or_pos fuel with rfl | hf
    · exfalso
      push_cast at hfe
      linarith
    · obtain ⟨f, rfl⟩ := Nat.exists_eq_succ_of_ne_zero (Nat.pos_iff_ne_zero.mp hf)
      have hloop := wait_loop_all_busy registryAt registryCheckAt select
        max_wait_time hav f 0 0 2 [] (le_refl 2)
        (by push_cast at hfe ⊢; linarith)
        (by simp)
        (fun _ => ⟨rfl, rfl⟩) (fun h => absurd rfl h)
      unfold wait_and_reserve_agent
      rw [if_neg (by rw [hemp]; simp)]
      exact ⟨hloop.1, rfl, hloop.2.2 h0, hloop.2.1⟩

/-- Witness for C4: the empty registry and a concrete all-BROKEN environment
with a 5 second budget and fuel 4; the run performs the 2 s and 3 s sleeps
and then times out. -/
theorem C4_wait_and_reserve_witness :
    (AgentRegistry.empty.is_empty = true ∧
      wait_and_reserve_agent AgentRegistry.empty (fun _ => c4brokenReg)
        (fun _ => c4brokenReg) (fun _ => none) 5 4 =
        (ReserveOutcome.noAgentsRegistered, [])) ∧
    (exRegistry.is_empty = false ∧
      c4brokenReg.get_available_agents = [] ∧
      (wait_and_reserve_agent exRegistry (fun _ => c4brokenReg)
        (fun _ => c4brokenReg) (fun _ => none) 5 4).1 =
        ReserveOutcome.reservationTimeout ∧
      (wait_and_reserve_agent exRegistry (fun _ => c4brokenReg)
        (fun _ => c4brokenReg) (fun _ => none) 5 4).2.head? = some 2 ∧
      List.Chain' (fun a b => b = min (a * (3 / 2)) max_wait_interval)
        (wait_and_reserve_agent exRegistry (fun _ => c4brokenReg)
          (fun _ => c4brokenReg) (fun _ => none) 5 4).2) := by
  have h1 := (C4_wait_and_reserve AgentRegistry.empty (fun _ => c4brokenReg)
    (fun _ => c4brokenReg) (fun _ => none) 5 4).1 (by decide)
  have h2 := (C4_wait_and_reserve exRegistry (fun _ => c4brokenReg)
    (fun _ => c4brokenReg) (fun _ => none) 5 4).2 (by decide)
    (fun _ => by decide) (by norm_num) (by norm_num)
  exact ⟨⟨by decide, h1.1⟩, by decide, by decide, h2.1, h2.2.2.1, h2.2.2.2⟩

/-! Entry lemmas for the dispatcher exit steps: every observable state they
add is either in the release window or a done-phase state in which the agent
is no longer BUSY. -/

theorem per_event_timeout_steps_entries (s : OrchState) (agent internal : String)
    (stuck : Option String) (now : Nat)
    (hc : (dictGet s.registry.cards agent).isSome) :
    ∀ pr ∈ (per_event_timeout_steps s agent internal stuck now).1,
      pr.1 = DispatchPhase.releaseWindow ∨
      (pr.1 = DispatchPhase.donePhase ∧
        pr.2.registry.get_status agent ≠ AgentStatus.BUSY) := by
  intro pr hpr
  unfold per_event_timeout_steps at hpr
  simp only [List.mem_cons, List.not_mem_nil, or_false] at hpr
  have hb := get_status_update_status_self s.registry agent AgentStatus.BROKEN
    (some BrokenReason.TASK_STUCK) stuck hc
  rcases hpr with h | h | h | h <;> subst h
  · exact Or.inl rfl
  · refine Or.inr ⟨rfl, ?_⟩
    dsimp only
    rw [hb]
    simp
  · refine Or.inr ⟨rfl, ?_⟩
    dsimp only
    rw [get_status_set_current_task, hb]
    simp
  · refine Or.inr ⟨rfl, ?_⟩
    dsimp only
    rw [get_status_set_current_task, hb]
    simp

theorem overall_timeout_steps_entries (s : OrchState) (agent internal : String)
    (now : Nat) (hc : (dictGet s.registry.cards agent).isSome) :
    ∀ pr ∈ (overall_timeout_steps s agent internal now).1,
      pr.1 = DispatchPhase.releaseWindow ∨
      (pr.1 = DispatchPhase.donePhase ∧
        pr.2.registry.get_status agent ≠ AgentStatus.BUSY) := by
  intro pr hpr
  unfold overall_timeout_steps at hpr
  simp only [List.mem_cons, List.not_mem_nil, or_false] at hpr
  have hb := get_status_update_status_self s.registry agent AgentStatus.BROKEN
    (some BrokenReason.TASK_STUCK) none hc
  rcases hpr with h | h | h | h <;> subst h
  · exact Or.inl rfl
  · refine Or.inr ⟨rfl, ?_⟩
    dsimp only
    rw [hb]
    simp
  · refine Or.inr ⟨rfl, ?_⟩
    dsimp only
    rw [get_status_set_current_task, hb]
    simp
  · refine Or.inr ⟨rfl, ?_⟩
    dsimp only
    rw [get_status_set_current_task, hb]
    simp

theorem finish_terminal_event_steps_entries (decode : String → Option String)
    (s : OrchState) (agent internal : String) (t : A2A.Task) (now : Nat)
    (hc : (dictGet s.registry.cards agent).isSome) :
    ∀ pr ∈ (finish_terminal_event_steps decode s agent internal t now).1,
      pr.1 = DispatchPhase.releaseWindow ∨
      (pr.1 = DispatchPhase.donePhase ∧
        pr.2.registry.get_status agent ≠ AgentStatus.BUSY) := by
  intro pr hpr
  unfold finish_terminal_event_steps at hpr
  simp only [List.mem_cons, List.not_mem_nil, or_false] at hpr
  have hb := get_status_update_status_self s.registry agent AgentStatus.AVAILABLE
    none none hc
  rcases hpr with h | h | h | h <;> subst h
  · exact Or.inl rfl
  · exact Or.inl rfl
  · refine Or.inr ⟨rfl, ?_⟩
    dsimp only
    rw [hb]
    simp
  · refine Or.inr ⟨rfl, ?_⟩
    dsimp only
    rw [get_status_set_current_task, hb]
    simp

theorem finish_stream_end_steps_entries (decode : String → Option String)
    (s : OrchState) (agent internal : String) (lt : A2A.Task) (now : Nat)
    (hc : (dictGet s.registry.cards agent).isSome) :
    ∀ pr ∈ (finish_stream_end_steps decode s agent internal lt now).1,
      pr.1 = DispatchPhase.releaseWindow ∨
      (pr.1 = DispatchPhase.donePhase ∧
        pr.2.registry.get_status agent ≠ AgentStatus.BUSY) := by
  intro pr hpr
  unfold finish_stream_end_steps at hpr
  simp only [List.mem_cons, List.not_mem_nil, or_false] at hpr
  have hb := get_status_update_status_self s.registry agent AgentStatus.AVAILABLE
    none none hc
  rcases hpr with h | h | h | h <;> subst h
  · exact Or.inl rfl
  · exact Or.inl rfl
  · refine Or.inr ⟨rfl, ?_⟩
    dsimp only
    rw [hb]
    simp
  · refine Or.inr ⟨rfl, ?_⟩
    dsimp only
    rw [get_status_set_current_task, hb]
    simp

theorem stream_ended_early_steps_entries (s : OrchState) (agent internal : String)
    (now : Nat) (hc : (dictGet s.registry.cards agent).isSome) :
    ∀ pr ∈ (stream_ended_early_steps s agent internal now).1,
      pr.1 = DispatchPhase.releaseWindow ∨
      (pr.1 = DispatchPhase.donePhase ∧
        pr.2.registry.get_status agent ≠ AgentStatus.BUSY) := by
  intro pr hpr
  unfold stream_ended_early_steps at hpr
  simp only [List.mem_cons, List.not_mem_nil, or_false] at hpr
  have hb := get_status_update_status_self s.registry agent AgentStatus.AVAILABLE
    none none hc
  rcases hpr with h | h | h <;> subst h
  · exact Or.inl rfl
  · refine Or.inr ⟨rfl, ?_⟩
    dsimp only
    rw [hb]
    simp
  · refine Or.inr ⟨rfl, ?_⟩
    dsimp only
    rw [get_status_set_current_task, hb]
    simp

theorem rpc_error_steps_entries (s : OrchState) (agent internal err : String)
    (now : Nat) (hc : (dictGet s.registry.cards agent).isSome) :
    ∀ pr ∈ (rpc_error_steps s agent internal err now).1,
      pr.1 = DispatchPhase.releaseWindow ∨
      (pr.1 = DispatchPhase.donePhase ∧
        pr.2.registry.get_status agent ≠ AgentStatus.BUSY) := by
  intro pr hpr
  unfold rpc_error_steps at hpr
  simp only [List.mem_cons, List.not_mem_nil, or_false] at hpr
  have hb := get_status_update_status_self s.registry agent AgentStatus.AVAILABLE
    none none hc
  rcases hpr with h | h | h <;> subst h
  · exact Or.inl rfl
  · refine Or.inr ⟨rfl, ?_⟩
    dsimp only
    rw [hb]
    simp
  · refine Or.inr ⟨rfl, ?_⟩
    dsimp only
    rw [get_status_set_current_task, hb]
    simp

theorem exception_steps_entries (s : OrchState) (agent internal err : String)
    (now : Nat) (hc : (dictGet s.registry.cards agent).isSome) :
    ∀ pr ∈ (exception_steps s agent internal err now).1,
      pr.1 = DispatchPhase.releaseWindow ∨
      (pr.1 = DispatchPhase.donePhase ∧
        pr.2.registry.get_status agent ≠ AgentStatus.BUSY) := by
  intro pr hpr
  unfold exception_steps at hpr
  simp only [List.mem_cons, List.not_mem_nil, or_false] at hpr
  have hb := get_status_update_status_self s.registry agent AgentStatus.BROKEN
    (some BrokenReason.OFFLINE) none hc
  rcases hpr with h | h | h | h <;> subst h
  · exact Or.inl rfl
  · refine Or.inr ⟨rfl, ?_⟩
    dsimp only
    rw [hb]
    simp
  · refine Or.inr ⟨rfl, ?_⟩
    dsimp only
    rw [get_status_set_current_task, hb]
    simp
  · refine Or.inr ⟨rfl, ?_⟩
    dsimp only
    rw [get_status_set_current_task, hb]
    simp

/-- Loop lemma for C6: every observable state the event loop appends to the
trace is in the release window or a done-phase state with the agent no longer
BUSY; the states already in the accumulator pass through unchanged. -/
theorem send_task_loop_new_entries (decode : String → Option String)
    (agent internal : String) (t0 timeout endDelay : Nat) :
    ∀ (events : List (Nat × StreamEvent)) (elapsed : Nat)
      (last : Option A2A.Task) (s : OrchState)
      (tr : List (DispatchPhase × OrchState)),
    (dictGet s.registry.cards agent).isSome →
    ∀ pr ∈ (send_task_loop decode agent internal t0 timeout endDelay events
        elapsed last s tr).1,
      pr ∈ tr ∨ pr.1 = DispatchPhase.releaseWindow ∨
      (pr.1 = DispatchPhase.donePhase ∧
        pr.2.registry.get_status agent ≠ AgentStatus.BUSY) := by
  intro events
  induction events with
  | nil =>
    intro elapsed last s tr hc pr hpr
    simp only [send_task_loop] at hpr
    split at hpr
    · rcases List.mem_append.mp hpr with h | h
      · exact Or.inl h
      · exact Or.inr (overall_timeout_steps_entries s agent internal _ hc pr h)
    · split at hpr
      · rcases List.mem_append.mp hpr with h | h
        · exact Or.inl h
        · exact Or.inr (per_event_timeout_steps_entries s agent internal _ _ hc pr h)
      · split at hpr
        · split at hpr
          · rcases List.mem_append.mp hpr with h | h
            · exact Or.inl h
            · exact Or.inr
                (finish_stream_end_steps_entries decode s agent internal _ _ hc pr h)
          · rcases List.mem_append.mp hpr with h | h
            · exact Or.inl h
            · exact Or.inr (stream_ended_early_steps_entries s agent internal _ hc pr h)
        · rcases List.mem_append.mp hpr with h | h
          · exact Or.inl h
          · exact Or.inr (stream_ended_early_steps_entries s agent internal _ hc pr h)
  | cons p rest ih =>
    intro elapsed last s tr hc pr hpr
    obtain ⟨d, ev⟩ := p
    simp only [send_task_loop] at hpr
    split at hpr
    · rcases List.mem_append.mp hpr with h | h
      · exact Or.inl h
      · exact Or.inr (overall_timeout_steps_entries s agent internal _ hc pr h)
    · split at hpr
      · rcases List.mem_append.mp hpr with h | h
        · exact Or.inl h
        · exact Or.inr (per_event_timeout_steps_entries s agent internal _ _ hc pr h)
      · split at hpr
        · exact ih (elapsed + d) last s tr hc pr hpr
        · rcases List.mem_append.mp hpr with h | h
          · exact Or.inl h
          · exact Or.inr (rpc_error_steps_entries s agent internal _ _ hc pr h)
        · rcases List.mem_append.mp hpr with h | h
          · exact Or.inl h
          · exact Or.inr (exception_steps_entries s agent internal _ _ hc pr h)
        · split at hpr
          · split at hpr
            · rcases List.mem_append.mp hpr with h | h
              · exact Or.inl h
              · exact Or.inr (exception_steps_entries s agent internal _ _ hc pr h)
            · rcases List.mem_append.mp hpr with h | h
              · exact Or.inl h
              · exact Or.inr (finish_terminal_event_steps_entries decode s agent
                  internal _ _ hc pr h)
          · exact ih (elapsed + d) (some _) s tr hc pr hpr

/-- C6 as amended: at every observable point of a dispatch outside the
reservation window (between marking the agent BUSY and setting its current
task) and the release window (between finalising the task record and
releasing or demoting the agent), a BUSY dispatched agent has a truthy
current task id referring to a RUNNING history record. -/
theorem C6_busy_invariant_amended (decode : String → Option String)
    (s0 : OrchState) (agent_id internal_task_id task_description : String)
    (t0 timeout endDelay : Nat) (events : List (Nat × StreamEvent))
    (hc : (dictGet s0.registry.cards agent_id).isSome)
    (hintern : internal_task_id ≠ "") :
    ∀ p st, (p, st) ∈ (send_task_to_agent_with_message decode s0 agent_id
        internal_task_id task_description t0 timeout endDelay events).trace →
      (p = DispatchPhase.runningPhase ∨ p = DispatchPhase.donePhase) →
      busy_invariant st agent_id := by
  intro p st hmem hp
  unfold send_task_to_agent_with_message at hmem
  dsimp only at hmem
  have hc3 : (dictGet (((s0.registry.update_status agent_id AgentStatus.BUSY none
      none)).set_current_task agent_id (some internal_task_id)).cards
      agent_id).isSome := by
    rw [cards_set_current_task, cards_update_status]
    exact hc
  have hsplit := send_task_loop_new_entries decode agent_id internal_task_id t0
    timeout endDelay events 0 none _ _ hc3 (p, st) hmem
  rcases hsplit with hin | hrel | ⟨hdone, hnb⟩
  · simp only [List.mem_cons, List.not_mem_nil, or_false] at hin
    rcases hin with h | h | h
    · rw [Prod.mk.injEq] at h
      rw [h.1] at hp
      simp at hp
    · rw [Prod.mk.injEq] at h
      rw [h.1] at hp
      simp at hp
    · rw [Prod.mk.injEq] at h
      rw [h.2]
      intro _
      refine ⟨internal_task_id, ?_, hintern, ?_⟩
      · exact get_current_task_set_some _ agent_id hintern
      · exact ⟨_, TaskHistory.get_by_id_add_self s0.history
          { task_id := internal_task_id, agent_id := agent_id,
            agent_name := ((s0.registry.update_status agent_id AgentStatus.BUSY
              none none)).get_name agent_id,
            description := task_description, status := TaskStatus.RUNNING,
            start_time := t0, end_time := none, error_message := none,
            agent_logs := [] }, rfl⟩
  · have hp1 : p = DispatchPhase.releaseWindow := hrel
    rcases hp with h1 | h1 <;> rw [h1] at hp1 <;> simp at hp1
  · intro hbusy
    exact absurd hbusy hnb

/-- C6 counterexample: in a concrete successful dispatch, the first observable
state has the agent BUSY with no current task (between the BUSY mark and
set_current_task), and the fourth has the agent still BUSY with its record
already COMPLETED (between finalisation and release); both observable states
violate the invariant as claimed. -/
theorem C6_busy_invariant_counterexample :
    (c6run.trace.head?.map (fun pr =>
      (pr.1, pr.2.registry.get_status "a1", pr.2.registry.get_current_task "a1"))) =
      some (DispatchPhase.reserveWindow, AgentStatus.BUSY, none) ∧
    (c6run.trace.getD 3 (DispatchPhase.donePhase, exState)).2.registry.get_status
      "a1" = AgentStatus.BUSY ∧
    (c6run.trace.getD 3 (DispatchPhase.donePhase, exState)).2.registry.get_current_task
      "a1" = some "itask-6" ∧
    Option.map TaskRecord.status ((c6run.trace.getD 3
      (DispatchPhase.donePhase, exState)).2.history.get_by_id "itask-6") =
      some TaskStatus.COMPLETED := by
  exact ⟨by decide, by decide, by decide, by decide⟩

/-- Witness for the amended C6 at the steady loop state of the concrete run. -/
theorem C6_busy_invariant_amended_witness :
    ((dictGet exState.registry.cards "a1").isSome ∧ ("itask-6" : String) ≠ "") ∧
    busy_invariant c6s2 "a1" := by
  refine ⟨⟨by decide, by decide⟩, ?_⟩
  have hmem : (DispatchPhase.runningPhase, c6s2) ∈ c6run.trace := by decide
  exact C6_busy_invariant_amended (fun _ => none) exState "a1" "itask-6" "desc"
    2000 5 99 [(1, StreamEvent.taskEvent exCompletedTask)] (by decide) (by decide)
    DispatchPhase.runningPhase c6s2 hmem (Or.inl rfl)

theorem stuck_update_status_busy (r : AgentRegistry) (a : String) :
    (r.update_status a AgentStatus.BUSY none none).stuck_task_ids =
      r.stuck_task_ids := by
  unfold AgentRegistry.update_status
  split <;> rfl

theorem map_status_update_of_mem (h : TaskHistory) (tid : String)
    (st : TaskStatus) (et : Option Nat) (em : Option String)
    (hsome : (h.get_by_id tid).isSome) :
    Option.map TaskRecord.status ((h.update tid st et em).get_by_id tid) =
      some st := by
  obtain ⟨old, hold⟩ := Option.isSome_iff_exists.mp hsome
  rw [get_by_id_update_self h tid st et em old hold]
  rfl

/-- Loop lemma for C2: whichever way the event loop exits through a timeout,
the final state is the one produced by the corresponding timeout path from the
state the loop was entered with. -/
theorem send_task_loop_timeout_exit (decode : String → Option String)
    (agent internal : String) (t0 timeout endDelay : Nat) :
    ∀ (events : List (Nat × StreamEvent)) (elapsed : Nat)
      (last : Option A2A.Task) (s : OrchState)
      (tr : List (DispatchPhase × OrchState)),
    timeoutExitOk s agent internal t0 timeout
      (send_task_loop decode agent internal t0 timeout endDelay events
        elapsed last s tr).2 := by
  intro events
  induction events with
  | nil =>
    intro elapsed last s tr
    simp only [send_task_loop]
    split
    · exact ⟨fun lt h => by simp at h, fun _ => ⟨elapsed, rfl⟩⟩
    · split
      · refine ⟨?_, fun h => by simp at h⟩
        intro lt h
        dsimp only at h ⊢
        injection h with hlt
        rw [hlt]
      · split
        · split
          · exact ⟨fun lt h => by simp at h, fun h => by simp at h⟩
          · exact ⟨fun lt h => by simp at h, fun h => by simp at h⟩
        · exact ⟨fun lt h => by simp at h, fun h => by simp at h⟩
  | cons p rest ih =>
    intro elapsed last s tr
    obtain ⟨d, ev⟩ := p
    simp only [send_task_loop]
    split
    · exact ⟨fun lt h => by simp at h, fun _ => ⟨elapsed, rfl⟩⟩
    · split
      · refine ⟨?_, fun h => by simp at h⟩
        intro lt h
        dsimp only at h ⊢
        injection h with hlt
        rw [hlt]
      · split
        · exact ih (elapsed + d) last s tr
        · exact ⟨fun lt h => by simp at h, fun h => by simp at h⟩
        · exact ⟨fun lt h => by simp at h, fun h => by simp at h⟩
        · split
          · split
            · exact ⟨fun lt h => by simp at h, fun h => by simp at h⟩
            · exact ⟨fun lt h => by simp at h, fun h => by simp at h⟩
          · exact ih (elapsed + d) (some _) s tr

/-- C2 counterexample: a dispatch whose overall elapsed time reaches the
budget after two `working` snapshots of remote task remote-1 exits with 408
and marks the agent BROKEN(TASK_STUCK), but the recorded broken context holds
no stuck task id at all, not the last known remote task id remote-1 the claim
promises. -/
theorem C2_stuck_id_counterexample :
    c2run.exitKind = DispatchExit.overallTimeout ∧
    dispatchHTTPStatus c2run.exitKind = some 408 ∧
    c2run.final.registry.get_status "a1" = AgentStatus.BROKEN ∧
    c2run.final.registry.get_broken_context "a1" =
      (some BrokenReason.TASK_STUCK, none) ∧
    ¬ (c2run.final.registry.get_broken_context "a1").2 = some "remote-1" := by
  exact ⟨by decide, by decide, by decide, by decide, by decide⟩

/-- C2 as amended: a dispatch that times out surfaces 408, finalises the
record FAILED, marks the agent BROKEN(TASK_STUCK) and enqueues
`(agent_id, now)` on the recovery channel; the stuck task id recorded equals
the last known remote task id only on the per-event path, while the
overall-elapsed path records no stuck id. -/
theorem C2_timeout_dispatch_amended (decode : String → Option String)
    (s0 : OrchState) (agent_id internal_task_id task_description : String)
    (t0 timeout endDelay : Nat) (events : List (Nat × StreamEvent))
    (R : DispatchResult)
    (hc : (dictGet s0.registry.cards agent_id).isSome)
    (hstuck : dictGet s0.registry.stuck_task_ids agent_id = none)
    (hrun : send_task_to_agent_with_message decode s0 agent_id internal_task_id
      task_description t0 timeout endDelay events = R) :
    (∀ lt, R.exitKind = DispatchExit.perEventTimeout lt →
      (∀ tid, lt = some tid → tid ≠ "") →
      dispatchHTTPStatus R.exitKind = some 408 ∧
      R.final.registry.get_status agent_id = AgentStatus.BROKEN ∧
      R.final.registry.get_broken_context agent_id =
        (some BrokenReason.TASK_STUCK, lt) ∧
      Option.map TaskRecord.status (R.final.history.get_by_id internal_task_id) =
        some TaskStatus.FAILED ∧
      R.final.cancellation_queue =
        s0.cancellation_queue ++ [(agent_id, t0 + timeout)]) ∧
    (R.exitKind = DispatchExit.overallTimeout →
      dispatchHTTPStatus R.exitKind = some 408 ∧
      R.final.registry.get_status agent_id = AgentStatus.BROKEN ∧
      R.final.registry.get_broken_context agent_id =
        (some BrokenReason.TASK_STUCK, none) ∧
      Option.map TaskRecord.status (R.final.history.get_by_id internal_task_id) =
        some TaskStatus.FAILED ∧
      ∃ e, R.final.cancellation_queue =
        s0.cancellation_queue ++ [(agent_id, t0 + e)]) := by
  subst hrun
  unfold send_task_to_agent_with_message
  dsimp only
  have hc3 : (dictGet ((s0.registry.update_status agent_id AgentStatus.BUSY none
      none).set_current_task agent_id (some internal_task_id)).cards
      agent_id).isSome := by
    rw [cards_set_current_task, cards_update_status]
    exact hc
  have hstuck3 : dictGet ((s0.registry.update_status agent_id AgentStatus.BUSY
      none none).set_current_task agent_id
      (some internal_task_id)).stuck_task_ids agent_id = none := by
    rw [stuck_set_current_task, stuck_update_status_busy]
    exact hstuck
  constructor
  · intro lt hexit hlt
    have hfin := (send_task_loop_timeout_exit decode agent_id internal_task_id
      t0 timeout endDelay events 0 none _ _).1 lt hexit
    rw [hfin, hexit]
    simp only [per_event_timeout_steps]
    refine ⟨rfl, ?_, ?_, ?_, ?_⟩
    · rw [get_status_set_current_task,
        get_status_update_status_self _ _ _ _ _ hc3]
    · unfold AgentRegistry.get_broken_context
      rw [Prod.mk.injEq]
      constructor
      · rw [broken_reasons_set_current_task]
        exact broken_reasons_update_status_broken _ _ _ _ hc3
      · rw [stuck_set_current_task]
        cases lt with
        | none =>
          rw [stuck_update_status_broken_none _ _ _ hc3]
          exact hstuck3
        | some tid => exact stuck_update_status_broken_some _ _ _ hc3 (hlt tid rfl)
    · refine map_status_update_of_mem _ _ _ _ _ ?_
      exact Option.isSome_iff_exists.mpr
        ⟨_, TaskHistory.get_by_id_add_self s0.history _⟩
    · trivial
  · intro hexit
    obtain ⟨e, hfin⟩ := (send_task_loop_timeout_exit decode agent_id
      internal_task_id t0 timeout endDelay events 0 none _ _).2 hexit
    rw [hfin, hexit]
    simp only [overall_timeout_steps]
    refine ⟨rfl, ?_, ?_, ?_, ⟨e, rfl⟩⟩
    · rw [get_status_set_current_task,
        get_status_update_status_self _ _ _ _ _ hc3]
    · unfold AgentRegistry.get_broken_context
      rw [Prod.mk.injEq]
      constructor
      · rw [broken_reasons_set_current_task]
        exact broken_reasons_update_status_broken _ _ _ _ hc3
      · rw [stuck_set_current_task, stuck_update_status_broken_none _ _ _ hc3]
        exact hstuck3
    · refine map_status_update_of_mem _ _ _ _ _ ?_
      exact Option.isSome_iff_exists.mpr
        ⟨_, TaskHistory.get_by_id_add_self s0.history _⟩

/-- Witness for the amended C2 on the concrete per-event-timeout run: one
working snapshot of remote-1 and then silence against a 5 second budget. -/
theorem C2_timeout_dispatch_amended_witness :
    ((dictGet exState.registry.cards "a1").isSome ∧
      dictGet exState.registry.stuck_task_ids "a1" = none ∧
      c2perRun.exitKind = DispatchExit.perEventTimeout (some "remote-1")) ∧
    (dispatchHTTPStatus c2perRun.exitKind = some 408 ∧
      c2perRun.final.registry.get_status "a1" = AgentStatus.BROKEN ∧
      c2perRun.final.registry.get_broken_context "a1" =
        (some BrokenReason.TASK_STUCK, some "remote-1") ∧
      Option.map TaskRecord.status (c2perRun.final.history.get_by_id "itask-2p") =
        some TaskStatus.FAILED ∧
      c2perRun.final.cancellation_queue =
        exState.cancellation_queue ++ [("a1", 1000 + 5)]) := by
  refine ⟨⟨by decide, by decide, by decide⟩, ?_⟩
  exact (C2_timeout_dispatch_amended (fun _ => none) exState "a1" "itask-2p"
    "desc" 1000 5 99 [(3, StreamEvent.taskEvent exWorkingTask)] c2perRun
    (by decide) (by decide) rfl).1 (some "remote-1") (by decide)
    (fun tid h => by injection h with h2; subst h2; decide)

end AgenticQA
